import Mathlib

/-!
# MovieFlix: playback controller, watchlist, catalog queries, sign-in and admin deletion

A shallow embedding of the parts of the MovieFlix front-end that carry
state-transition logic:

* `src/components/VideoPlayer.js`: the event handlers of the playback
  controller, the effect that hosts `addToWatchHistory`, and the re-run rule
  of that effect (its dependency list);
* `src/context/AuthContext.js`: `toggleWatchlist` (read, compute, write back);
* `src/pages/MovieDetailsPage.js`: `toggleWatchlist` (`arrayUnion` /
  `arrayRemove` on the stored list) and the `inWatchlist` initialisation;
* `src/hooks/useMovies.js`: `fetchMovies` (query construction, `hasMore`),
  `updateMovie`, `deleteMovie`, `fetchRelatedMovies`, `rateMovie`;
* `src/pages/LoginPage.js`, `src/pages/SignupPage.js`: `handleSubmit`;
  `src/context/AuthContext.js`: `createUserDocument`, `signUp`, the
  auth-state listener, `logout`, `checkAdminStatus`, `setAdminRole`,
  `updateUserProfile`;
* `src/components/admin/MovieManagement.js`: `handleDelete`;
* `src/components/VideoPlayer.js` again: `loadVideo`, the control hide timer,
  `formatTime`.

Modelling conventions.

* JavaScript numbers that hold media times, volumes and pixel coordinates are
  rationals; only their order and field arithmetic is used.
* `new Date()` is a parameter `now`, milliseconds since the epoch.
* The document `users/<uid>` of the signed-in user is an `Option UserDoc`
  (`none`: the document does not exist).  Asynchronous read-then-write
  sequences are executed without interleaving.
* A React state update followed by the re-render is one step; an effect is
  re-run after a step exactly when one of its dependencies changed.
* SDK calls are parameters (a `Backend` record of outcomes); what a function
  sends to the backend is returned as a list of calls in order.
* Strings are compared as the document store does, lexicographically by code
  point.
-/

namespace MovieFlix

/-! ## Stored data -/

/-- A time as it is stored in a document: `new Date().toISOString()` gives a
string field, `new Date()` a timestamp field.  Both are determined by the
millisecond count, and a string never equals a timestamp. -/
inductive TimeValue where
  | isoString (ms : Nat)
  | date (ms : Nat)
  deriving DecidableEq

/-- One watchlist entry `{movieId, title, poster, addedAt}`. -/
structure WatchlistItem where
  movieId : String
  title : String
  poster : Option String
  addedAt : TimeValue
  deriving DecidableEq

/-- One watch-history entry `{movieId, title, watchedAt, poster}`. -/
structure HistoryEntry where
  movieId : String
  title : String
  watchedAt : Nat
  poster : Option String
  deriving DecidableEq

/-- The fields of `users/<uid>` that the watchlist and watch-history code reads
and writes; `none` is an absent field. -/
structure UserDoc where
  watchlist : Option (List WatchlistItem)
  watchHistory : Option (List HistoryEntry)
  deriving DecidableEq

/-- Firestore `arrayUnion(e)` applied to a field: the element is appended unless
an equal element is already there; an absent field becomes `[e]`. -/
def arrayUnion {α : Type} [DecidableEq α] (field : Option (List α)) (e : α) : List α :=
  match field with
  | none => [e]
  | some xs => if e ∈ xs then xs else xs ++ [e]

/-- Firestore `arrayRemove(e)` applied to a field: every element equal to `e`
is removed; an absent field becomes `[]`. -/
def arrayRemove {α : Type} [DecidableEq α] (field : Option (List α)) (e : α) : List α :=
  match field with
  | none => []
  | some xs => xs.filter (fun x => decide (x ≠ e))

/-- At most one watchlist entry per `movieId`. -/
def UniqueMovieIds (l : List WatchlistItem) : Prop :=
  (l.map (fun item => item.movieId)).Nodup

instance (l : List WatchlistItem) : Decidable (UniqueMovieIds l) := by
  unfold UniqueMovieIds
  infer_instance

/-! ## VideoPlayer -/

namespace VideoPlayer

/-- The props `{ movieId, videoUrl, poster, title }` of the component. -/
structure Props where
  movieId : String
  videoUrl : Option String
  poster : Option String
  title : String

/-- The `<video>` element behind `videoRef.current`, with the properties the
handlers read or assign; `prevVolume` is `dataset.prevVolume` (the number that
was stored, read back by `parseFloat`). -/
structure VideoElement where
  currentTime : ℚ
  duration : ℚ
  volume : ℚ
  muted : Bool
  prevVolume : Option ℚ
  deriving DecidableEq

/-- The `useState` cells of the component that the handlers below touch
(`progress`, a display percentage derived from `currentTime`, is left out),
and `videoRef.current`. -/
structure State where
  isPlaying : Bool
  currentTime : ℚ
  duration : ℚ
  volume : ℚ
  isMuted : Bool
  showControls : Bool
  isBuffering : Bool
  watchStarted : Bool
  videoRef : Option VideoElement
  deriving DecidableEq

/-- The state after the first render: the `useState` defaults, and the mounted
`<video>` element (position 0, full volume, not muted, empty dataset). -/
def initialState (duration : ℚ) : State :=
  { isPlaying := false
    currentTime := 0
    duration := 0
    volume := 1
    isMuted := false
    showControls := true
    isBuffering := false
    watchStarted := false
    videoRef := some
      { currentTime := 0, duration := duration, volume := 1, muted := false,
        prevVolume := none } }

/-- `handleTimeUpdate`: copy the element's position into the state and mark the
session as watched once the position is past 30 seconds. -/
def handleTimeUpdate (s : State) : State :=
  match s.videoRef with
  | none => s
  | some v =>
    let s1 := { s with currentTime := v.currentTime }
    if v.currentTime > 30 ∧ s.watchStarted = false then
      { s1 with watchStarted := true }
    else s1

/-- `handlePlay`. -/
def handlePlay (s : State) : State := { s with isPlaying := true }

/-- `handlePause`. -/
def handlePause (s : State) : State := { s with isPlaying := false }

/-- `handleProgressClick`: `pos = (e.clientX - rect.left) / rect.width`, then
`currentTime = pos * duration` is assigned to the element. -/
def handleProgressClick (clientX left width : ℚ) (s : State) : State :=
  match s.videoRef with
  | none => s
  | some v =>
    let pos := (clientX - left) / width
    { s with videoRef := some { v with currentTime := pos * v.duration } }

/-- `handleVolumeChange` with `parseFloat(e.target.value) = value`. -/
def handleVolumeChange (value : ℚ) (s : State) : State :=
  let s1 := { s with volume := value }
  let s2 :=
    match s1.videoRef with
    | none => s1
    | some v => { s1 with videoRef := some { v with volume := value } }
  { s2 with isMuted := decide (value = 0) }

/-- `toggleMute`. -/
def toggleMute (s : State) : State :=
  match s.videoRef with
  | none => s
  | some v =>
    let newMutedState := !s.isMuted
    if newMutedState then
      { s with
        isMuted := newMutedState
        volume := 0
        videoRef := some { v with muted := newMutedState, prevVolume := some s.volume } }
    else
      let prevVolume := v.prevVolume.getD 1
      { s with
        isMuted := newMutedState
        volume := prevVolume
        videoRef := some { v with muted := newMutedState, volume := prevVolume } }

/-- `handleBackward`: `currentTime = Math.max(0, currentTime - 10)`. -/
def handleBackward (s : State) : State :=
  match s.videoRef with
  | none => s
  | some v => { s with videoRef := some { v with currentTime := max 0 (v.currentTime - 10) } }

/-- `handleForward`: `currentTime = Math.min(duration, currentTime + 10)`. -/
def handleForward (s : State) : State :=
  match s.videoRef with
  | none => s
  | some v =>
    { s with videoRef := some { v with currentTime := min v.duration (v.currentTime + 10) } }

/-- `poster || null`: an absent or empty poster is stored as `null`. -/
def posterOrNull (poster : Option String) : Option String :=
  match poster with
  | none => none
  | some p => if p = "" then none else some p

/-- `addToWatchHistory`, run against the signed-in user's document.  Returns the
document afterwards and the number of `updateDoc` writes it issued. -/
def addToWatchHistory (props : Props) (currentUser : Option String)
    (store : Option UserDoc) (now : Nat) : Option UserDoc × Nat :=
  match currentUser with
  | none => (store, 0)
  | some _ =>
    match store with
    | none => (store, 0)
    | some userData =>
      let watchHistory := userData.watchHistory.getD []
      let entry : HistoryEntry :=
        { movieId := props.movieId, title := props.title, watchedAt := now,
          poster := posterOrNull props.poster }
      match watchHistory.find? (fun item => item.movieId == props.movieId) with
      | none =>
        (some { userData with watchHistory := some (arrayUnion userData.watchHistory entry) }, 1)
      | some _ =>
        let updatedHistory := watchHistory.filter (fun item => item.movieId != props.movieId)
        (some { userData with watchHistory := some (updatedHistory ++ [entry]) }, 1)

/-- One viewing session: the mounted component with fixed props and signed-in
user, the user's document, and counters of what the effect has done so far. -/
structure Session where
  props : Props
  currentUser : Option String
  store : Option UserDoc
  state : State
  loadCalls : Nat
  historyCalls : Nat
  historyWrites : Nat

/-- The body of the first `useEffect`: `loadVideo()` is called, and
`addToWatchHistory()` is called when `watchStarted` holds. -/
def runEffect (now : Nat) (s : Session) : Session :=
  let s1 := { s with loadCalls := s.loadCalls + 1 }
  if s1.state.watchStarted then
    let r := addToWatchHistory s1.props s1.currentUser s1.store now
    { s1 with
      store := r.1
      historyCalls := s1.historyCalls + 1
      historyWrites := s1.historyWrites + r.2 }
  else s1

/-- The dependency list of that effect is `[videoUrl, storage, watchStarted,
movieId, title, poster, auth.currentUser, db, isPlaying]`.  Props, user and the
SDK handles are fixed within a session, so a dependency changed exactly when
`watchStarted` or `isPlaying` did. -/
def depsChanged (old new : State) : Bool :=
  old.watchStarted != new.watchStarted || old.isPlaying != new.isPlaying

/-- Events the `<video>` element reports: `timeupdate` at position `t`, `play`,
`pause`. -/
inductive Event where
  | timeUpdate (t : ℚ)
  | play
  | pause

/-- The handler bound to each event; a `timeupdate` arrives with the element's
position already at `t`. -/
def handle : Event → State → State
  | .timeUpdate t, s =>
    handleTimeUpdate { s with videoRef := s.videoRef.map (fun v => { v with currentTime := t }) }
  | .play, s => handlePlay s
  | .pause, s => handlePause s

/-- One event at wall-clock time `ev.1`: the handler updates the state, the
component re-renders, and the effect re-runs if a dependency changed. -/
def step (s : Session) (ev : Nat × Event) : Session :=
  let st := handle ev.2 s.state
  let s1 := { s with state := st }
  if depsChanged s.state st then runEffect ev.1 s1 else s1

/-- Mounting the component: first render, then the effect runs once. -/
def mount (props : Props) (currentUser : Option String) (store : Option UserDoc)
    (duration : ℚ) (now : Nat) : Session :=
  runEffect now
    { props := props, currentUser := currentUser, store := store,
      state := initialState duration, loadCalls := 0, historyCalls := 0, historyWrites := 0 }

/-- A session fed a sequence of timed events. -/
def run (s : Session) (evs : List (Nat × Event)) : Session :=
  evs.foldl step s

/-- The position of the video element, when there is one. -/
def position (s : State) : Option ℚ := s.videoRef.map (fun v => v.currentTime)

/-- A list of timed positions as a list of `timeupdate` events. -/
def timeUpdates (ts : List (Nat × ℚ)) : List (Nat × Event) :=
  ts.map (fun p => (p.1, Event.timeUpdate p.2))

/-- A session for movie `m1` of a signed-in user whose document exists and has
an empty watch history. -/
def sampleSession : Session :=
  mount { movieId := "m1", videoUrl := some "movies/m1.mp4", poster := none, title := "M" }
    (some "u1") (some { watchlist := some [], watchHistory := some [] }) 120 0

/-- A player whose video element is at position 45 of a 100 second medium. -/
def seekSample : State :=
  { initialState 100 with
    videoRef := some
      { currentTime := 45, duration := 100, volume := 1, muted := false, prevVolume := none } }

/-- A player whose video element has reached the end of a 120 second medium. -/
def endSample : State :=
  { initialState 120 with
    currentTime := 120
    videoRef := some
      { currentTime := 120, duration := 120, volume := 1, muted := false, prevVolume := none } }

/-- An unmuted player showing volume 3/5. -/
def volumeSample : State := { initialState 100 with volume := 3 / 5 }

end VideoPlayer

/-! ## AuthContext -/

namespace AuthContext

/-- The `movieData` argument of `toggleWatchlist`; only `title` and `poster`
are read. -/
structure MovieData where
  title : String
  poster : Option String

/-- What `toggleWatchlist` throws (after `setError(err.message)`): the explicit
`Error("Must be logged in to manage watchlist")`, or the `TypeError` of reading
`.watchlist` from `userDoc.data()` when the document does not exist. -/
inductive ToggleError where
  | mustBeLoggedIn
  | noUserData
  deriving DecidableEq

/-- `Array.prototype.findIndex`: the index of the first element satisfying `p`,
or `-1`. -/
def findIndex {α : Type} (p : α → Bool) : List α → Int
  | [] => -1
  | x :: xs =>
    if p x then 0
    else
      let r := findIndex p xs
      if r < 0 then -1 else r + 1

/-- `toggleWatchlist(movieId, movieData)`: read the stored list, remove the
movie when present and append a new entry otherwise, write the whole list
back.  Returns the document after `updateDoc` and the list that was written
(which is also the value the function returns). -/
def toggleWatchlist (user : Option String) (store : Option UserDoc) (movieId : String)
    (movieData : MovieData) (now : Nat) :
    Except ToggleError (UserDoc × List WatchlistItem) :=
  match user with
  | none => .error .mustBeLoggedIn
  | some _ =>
    match store with
    | none => .error .noUserData
    | some userData =>
      let watchlist := userData.watchlist.getD []
      let existingIndex := findIndex (fun item => item.movieId == movieId) watchlist
      let updatedWatchlist :=
        if existingIndex ≥ 0 then
          watchlist.filter (fun item => item.movieId != movieId)
        else
          let newWatchlistItem : WatchlistItem :=
            { movieId := movieId, title := movieData.title, poster := movieData.poster,
              addedAt := .isoString now }
          watchlist ++ [newWatchlistItem]
      .ok ({ userData with watchlist := some updatedWatchlist }, updatedWatchlist)

/-- The stored list contains an entry for movie `m`. -/
def hasMovie (m : String) (l : List WatchlistItem) : Prop := ∃ item ∈ l, item.movieId = m

end AuthContext

/-! ## MovieDetailsPage -/

namespace MovieDetailsPage

/-- The fields of the loaded `movie` state that the watchlist toggle reads. -/
structure Movie where
  title : String
  poster : Option String
  deriving DecidableEq

/-- The page state the watchlist toggle reads and writes: the route parameter
`id`, the loaded `movie` (`none` while it is `null`), and the two flags. -/
structure Page where
  id : String
  movie : Option Movie
  inWatchlist : Bool
  isWatchlistLoading : Bool
  deriving DecidableEq

/-- The value of `inWatchlist` after `fetchMovie`: the `useState(false)` default,
replaced by `watchlist.some(item => item.movieId === id)` only when a user is
signed in, the user document exists and it has a watchlist. -/
def initInWatchlist (currentUser : Option String) (store : Option UserDoc) (id : String) :
    Bool :=
  match currentUser with
  | none => false
  | some _ =>
    match store with
    | none => false
    | some userData =>
      match userData.watchlist with
      | none => false
      | some watchlist => watchlist.any (fun item => item.movieId == id)

/-- The page as `fetchMovie` leaves it for a movie that was found. -/
def loaded (currentUser : Option String) (store : Option UserDoc) (id : String)
    (movie : Movie) : Page :=
  { id := id, movie := some movie, inWatchlist := initInWatchlist currentUser store id,
    isWatchlistLoading := false }

/-- One press of the watchlist button at time `now`.  Without a signed-in user
nothing happens.  Otherwise `updateDoc` is issued with `arrayRemove` (flag set)
or `arrayUnion` (flag clear) of an entry stamped `new Date()`, and the flag is
flipped; a thrown error (no `movie`, no user document) is logged and leaves
flag and document as they were. -/
def toggleWatchlist (currentUser : Option String) (now : Nat)
    (w : Page × Option UserDoc) : Page × Option UserDoc :=
  match currentUser with
  | none => w
  | some _ =>
    match w.1.movie, w.2 with
    | some movie, some userData =>
      let entry : WatchlistItem :=
        { movieId := w.1.id, title := movie.title, poster := movie.poster, addedAt := .date now }
      if w.1.inWatchlist then
        ({ w.1 with inWatchlist := false, isWatchlistLoading := false },
          some { userData with watchlist := some (arrayRemove userData.watchlist entry) })
      else
        ({ w.1 with inWatchlist := true, isWatchlistLoading := false },
          some { userData with watchlist := some (arrayUnion userData.watchlist entry) })
    | _, _ => ({ w.1 with isWatchlistLoading := false }, w.2)

/-- A sequence of presses, one after the other, at the given times. -/
def presses (currentUser : Option String) (times : List Nat)
    (w : Page × Option UserDoc) : Page × Option UserDoc :=
  times.foldl (fun acc now => toggleWatchlist currentUser now acc) w

/-- The details page of movie `m1` as loaded for signed-in user `u1` over the
given stored watchlist. -/
def samplePage (stored : List WatchlistItem) : Page × Option UserDoc :=
  (loaded (some "u1") (some { watchlist := some stored, watchHistory := none }) "m1"
      { title := "One", poster := none },
    some { watchlist := some stored, watchHistory := none })

end MovieDetailsPage

/-! ## JavaScript string helpers -/

/-- `s.startsWith(pre)`. -/
def startsWith (s pre : String) : Bool := pre.data.isPrefixOf s.data

/-- `includes` on character lists: `sub` occurs in `l` as a contiguous block. -/
def includesChars (sub : List Char) : List Char → Bool
  | [] => sub.isEmpty
  | c :: cs => sub.isPrefixOf (c :: cs) || includesChars sub cs

/-- `s.includes(sub)`. -/
def includes (s sub : String) : Bool := includesChars sub.data s.data

/-- JavaScript truthiness of a string-valued field: `undefined`, `null` and `""`
are falsy. -/
def truthy (v : Option String) : Bool :=
  match v with
  | none => false
  | some s => s != ""

/-! ## useMovies -/

namespace UseMovies

/-- A document of the `movies` collection with the fields the hook inspects;
`none` is an absent field. -/
structure MovieRecord where
  id : String
  title : String
  genre : String
  year : Nat
  poster : Option String
  videoUrl : Option String
  deriving DecidableEq

/-- A `where(...)` clause built by `fetchMovies`. -/
inductive Condition where
  | genreEq (genre : String)
  | yearEq (year : Nat)
  | titleGe (bound : String)
  | titleLe (bound : String)
  deriving DecidableEq

/-- The backend's reading of a clause on a document; strings are ordered
lexicographically by code point. -/
def Condition.holds (c : Condition) (m : MovieRecord) : Prop :=
  match c with
  | .genreEq g => m.genre = g
  | .yearEq y => m.year = y
  | .titleGe b => b ≤ m.title
  | .titleLe b => m.title ≤ b

instance (c : Condition) (m : MovieRecord) : Decidable (c.holds m) := by
  cases c <;> simp only [Condition.holds] <;> infer_instance

/-- The query handed to `getDocs`. -/
structure Query where
  conditions : List Condition
  sortField : String
  sortDirection : String
  limit : Nat
  startAfter : Option MovieRecord
  deriving DecidableEq

/-- The options object of `fetchMovies`, with its defaults. -/
structure FetchOptions where
  categoryFilter : Option String := none
  yearFilter : Option Nat := none
  searchQuery : Option String := none
  sortField : String := "createdAt"
  sortDirection : String := "desc"
  itemsPerPage : Nat := 12
  resetPagination : Bool := false

/-- The `useState` cells of the hook. -/
structure HookState where
  movies : List MovieRecord
  movie : Option MovieRecord
  loading : Bool
  error : Option String
  lastVisible : Option MovieRecord
  hasMore : Bool
  uploadProgress : ℚ
  deriving DecidableEq

/-- The hook right after its first render. -/
def initialHook : HookState :=
  { movies := [], movie := none, loading := false, error := none, lastVisible := none,
    hasMore := true, uploadProgress := 0 }

/-- The two clauses pushed for a search: `title >= q` and `title <= q + "\uf8ff"`. -/
def searchConditions (searchQuery : String) : List Condition :=
  [.titleGe searchQuery, .titleLe (searchQuery ++ "\uf8ff")]

/-- The `conditions` array of `fetchMovies`: each filter is pushed when its
option is truthy. -/
def buildConditions (o : FetchOptions) : List Condition :=
  (if truthy o.categoryFilter then [Condition.genreEq (o.categoryFilter.getD "")] else []) ++
  (match o.yearFilter with
    | some y => if y ≠ 0 then [Condition.yearEq y] else []
    | none => []) ++
  (if truthy o.searchQuery then searchConditions (o.searchQuery.getD "") else [])

/-- The query `fetchMovies` builds; `lastVisible` is the cursor the callback
closed over, used unless pagination is reset. -/
def buildQuery (o : FetchOptions) (lastVisible : Option MovieRecord) : Query :=
  { conditions := buildConditions o
    sortField := o.sortField
    sortDirection := o.sortDirection
    limit := o.itemsPerPage
    startAfter := if o.resetPagination then none else lastVisible }

/-- `fetchMovies(options)` against a backend whose `getDocs` either returns the
page of documents or rejects.  Returns the hook state afterwards and the
returned array. -/
def fetchMovies (getDocs : Query → Except String (List MovieRecord)) (o : FetchOptions)
    (s : HookState) : HookState × List MovieRecord :=
  let s1 := { s with loading := true, error := none }
  let s2 := if o.resetPagination then { s1 with lastVisible := none, hasMore := true } else s1
  match getDocs (buildQuery o s.lastVisible) with
  | .ok docs =>
    let s3 :=
      if docs.length < o.itemsPerPage then { s2 with hasMore := false }
      else { s2 with lastVisible := docs.getLast? }
    let s4 :=
      if o.resetPagination then { s3 with movies := docs }
      else { s3 with movies := s3.movies ++ docs }
    ({ s4 with loading := false }, docs)
  | .error _ =>
    ({ s2 with error := some "Failed to fetch movies. Please try again later.",
               loading := false }, [])

/-- A backend holding a fixed catalog: a query gets the first `limit` documents
that satisfy all its clauses. -/
def catalogBackend (catalog : List MovieRecord) (q : Query) :
    Except String (List MovieRecord) :=
  .ok ((catalog.filter (fun m => q.conditions.all (fun c => decide (c.holds m)))).take q.limit)

/-- A one-movie catalog. -/
def sampleCatalog : List MovieRecord :=
  [{ id := "m1", title := "Alien", genre := "Horror", year := 1979, poster := none,
     videoUrl := none }]

end UseMovies

namespace UseMovies

/-- The character U+F8FF that closes the search range. -/
def upperBoundChar : Char := Char.ofNat 0xF8FF

/-- The hook after a first `fetchMovies()` with default options on the
one-movie catalog. -/
def afterShortPage : HookState :=
  (fetchMovies (catalogBackend sampleCatalog) {} initialHook).1

/-- A movie titled `K-On` followed by the fullwidth exclamation mark U+FF01. -/
def fullwidthTitle : MovieRecord :=
  { id := "m2", title := "K-On\uff01", genre := "Anime", year := 2011, poster := none,
    videoUrl := none }

end UseMovies

/-! ## Documents as written by `setDoc` -/

/-- An error thrown by an SDK call; `code` is `error.code` (`none` when the
thrown value has no code). -/
structure SdkError where
  code : Option String
  deriving DecidableEq

/-- A field value in an object handed to `setDoc`. -/
inductive FieldValue where
  | undefined
  | null
  | str (s : String)
  | time (t : TimeValue)
  | emptyMap
  | emptyList
  deriving DecidableEq

/-- A JavaScript object literal: its properties in insertion order. -/
abbrev DocData := List (String × FieldValue)

/-- Reading property `k`. -/
def getField (d : DocData) (k : String) : Option FieldValue :=
  (d.find? (fun p => p.1 == k)).map (fun p => p.2)

/-- Setting property `k`: an existing property is overwritten in place, a new
one is appended. -/
def setField (d : DocData) (k : String) (v : FieldValue) : DocData :=
  if d.any (fun p => p.1 == k) then d.map (fun p => if p.1 == k then (k, v) else p)
  else d ++ [(k, v)]

/-- The object `{ ...d, ...extra }`. -/
def spread (d extra : DocData) : DocData :=
  extra.foldl (fun acc p => setField acc p.1 p.2) d

/-- JavaScript truthiness of a field value. -/
def FieldValue.truthy : FieldValue → Bool
  | .undefined => false
  | .null => false
  | .str s => s != ""
  | _ => true

/-- The operator `a || b`. -/
def FieldValue.orElse (a b : FieldValue) : FieldValue := if a.truthy then a else b

/-- An optional string argument as a field value: an omitted argument is
`undefined`. -/
def FieldValue.ofOptional : Option String → FieldValue
  | none => .undefined
  | some s => .str s

/-- A nullable string property as a field value. -/
def FieldValue.ofNullable : Option String → FieldValue
  | none => .null
  | some s => .str s

/-- `setDoc(ref, data)`: the SDK rejects data holding an `undefined` field before
anything is sent; otherwise the outcome is the backend's. -/
def firestoreSetDoc (backend : String → DocData → Except SdkError Unit) (uid : String)
    (data : DocData) : Except SdkError Unit :=
  if data.any (fun p => p.2 == FieldValue.undefined) then
    .error { code := some "invalid-argument" }
  else backend uid data

/-- `s.length`: the number of UTF-16 code units. -/
def jsLength (s : String) : Nat :=
  s.data.foldl (fun n c => n + (if c.toNat < 65536 then 1 else 2)) 0

/-! ## LoginPage -/

namespace LoginPage

/-- The signed-in user of a credential. -/
structure CredentialUser where
  uid : String
  email : Option String
  displayName : Option String

/-- The SDK calls `handleSubmit` makes and their outcomes; `getDoc` gives the
`role` field of the user document (`none`: no document). -/
structure Backend where
  signIn : String → String → Except SdkError CredentialUser
  getDoc : String → Except SdkError (Option (Option String))
  setDoc : String → Except SdkError Unit

/-- The `useState` cells of the page. -/
structure PageState where
  email : String
  password : String
  error : String
  loading : Bool
  deriving DecidableEq

/-- The body of the `try` block: sign in, read the user document, write the
last-login stamp (or a fresh document), and pick the route to navigate to. -/
def attempt (b : Backend) (email password : String) : Except SdkError String :=
  match b.signIn email password with
  | .error e => .error e
  | .ok user =>
    match b.getDoc user.uid with
    | .error e => .error e
    | .ok (some role) =>
      match b.setDoc user.uid with
      | .error e => .error e
      | .ok _ => if role = some "admin" then .ok "/admin" else .ok "/"
    | .ok none =>
      match b.setDoc user.uid with
      | .error e => .error e
      | .ok _ => .ok "/"

/-- The message chosen in the `catch` block. -/
def errorMessage (code : Option String) : String :=
  if code = some "auth/user-not-found" ∨ code = some "auth/wrong-password" then
    "Invalid email or password"
  else if code = some "auth/too-many-requests" then
    "Too many failed login attempts. Please try again later"
  else "Failed to sign in"

/-- `handleSubmit`: the page state afterwards and the route passed to
`navigate`, if any. -/
def handleSubmit (b : Backend) (s : PageState) : PageState × Option String :=
  let s1 := { s with loading := true, error := "" }
  match attempt b s.email s.password with
  | .ok route => ({ s1 with loading := false }, some route)
  | .error e => ({ s1 with error := errorMessage e.code, loading := false }, none)

/-- A backend whose sign-in rejects with the given code. -/
def rejecting (code : Option String) : Backend :=
  { signIn := fun _ _ => .error { code := code }
    getDoc := fun _ => .ok none
    setDoc := fun _ => .ok () }

end LoginPage

/-! ## SignupPage -/

namespace SignupPage

/-- The `useState` cells of the page. -/
structure PageState where
  name : String
  email : String
  password : String
  confirmPassword : String
  error : String
  loading : Bool
  deriving DecidableEq

/-- The SDK calls `handleSubmit` makes and their outcomes; `createUser` gives the
uid of the new account. -/
structure Backend where
  createUser : String → String → Except SdkError String
  updateProfile : String → String → Except SdkError Unit
  setDoc : String → DocData → Except SdkError Unit

/-- A call issued to the backend. -/
inductive Call where
  | createUser (email password : String)
  | updateProfile (uid displayName : String)
  | setDoc (uid : String) (data : DocData)
  deriving DecidableEq

/-- What one `handleSubmit` did: the page state afterwards, the route passed to
`navigate`, the backend calls in order, and the document `setDoc` stored. -/
structure Result where
  state : PageState
  navigated : Option String
  calls : List Call
  written : Option (String × DocData)
  deriving DecidableEq

/-- The message chosen in the `catch` block. -/
def errorMessage (code : Option String) : String :=
  if code = some "auth/email-already-in-use" then "Email is already in use"
  else if code = some "auth/invalid-email" then "Invalid email address"
  else "Failed to sign up"

/-- The object handed to `setDoc`. -/
def userDocument (name email : String) (now : Nat) : DocData :=
  [("name", .str name), ("email", .str email), ("createdAt", .time (.date now)),
   ("role", .str "user"), ("watchlist", .emptyList)]

/-- `handleSubmit` at time `now`. -/
def handleSubmit (b : Backend) (now : Nat) (s : PageState) : Result :=
  let s1 := { s with loading := true, error := "" }
  if s.password ≠ s.confirmPassword then
    { state := { s1 with error := "Passwords don't match", loading := false },
      navigated := none, calls := [], written := none }
  else if jsLength s.password < 6 then
    { state := { s1 with error := "Password must be at least 6 characters", loading := false },
      navigated := none, calls := [], written := none }
  else
    let failed (e : SdkError) (calls : List Call) : Result :=
      { state := { s1 with error := errorMessage e.code, loading := false },
        navigated := none, calls := calls, written := none }
    let c1 := [Call.createUser s.email s.password]
    match b.createUser s.email s.password with
    | .error e => failed e c1
    | .ok uid =>
      let c2 := c1 ++ [Call.updateProfile uid s.name]
      match b.updateProfile uid s.name with
      | .error e => failed e c2
      | .ok _ =>
        let data := userDocument s.name s.email now
        let c3 := c2 ++ [Call.setDoc uid data]
        match firestoreSetDoc b.setDoc uid data with
        | .error e => failed e c3
        | .ok _ =>
          { state := { s1 with loading := false }, navigated := some "/", calls := c3,
            written := some (uid, data) }

/-- A backend on which every call succeeds. -/
def accepting : Backend :=
  { createUser := fun _ _ => .ok "uid1"
    updateProfile := fun _ _ => .ok ()
    setDoc := fun _ _ => .ok () }

/-- The form filled in with matching passwords of length 7. -/
def sampleForm : PageState :=
  { name := "Ann", email := "a@b.com", password := "secret1", confirmPassword := "secret1",
    error := "", loading := false }

end SignupPage

/-! ## AuthContext: sign-up -/

namespace AuthContext

/-- The properties of the auth user that `createUserDocument` reads. -/
structure AuthUser where
  uid : String
  email : Option String
  displayName : Option String
  photoURL : Option String
  deriving DecidableEq

/-- The SDK calls `signUp` makes and their outcomes. -/
structure SignUpBackend where
  createUser : String → String → Except SdkError AuthUser
  updateProfile : String → String → Except SdkError Unit
  setDoc : String → DocData → Except SdkError Unit

/-- `createUserDocument(user, additionalData, role)` at time `now`: the
document stored by `setDoc`, or `none` when there is no user or `setDoc` threw
(the error is logged and put in the error state, not rethrown). -/
def createUserDocument (setDoc : String → DocData → Except SdkError Unit)
    (user : Option AuthUser) (additionalData : DocData) (role : String) (now : Nat) :
    Option (String × DocData) :=
  match user with
  | none => none
  | some u =>
    let createdAt := FieldValue.time (.isoString now)
    let data := spread
      [("uid", .str u.uid),
       ("email", FieldValue.ofNullable u.email),
       ("displayName",
         (FieldValue.ofNullable u.displayName).orElse
           (((getField additionalData "displayName").getD .undefined).orElse (.str ""))),
       ("photoURL", (FieldValue.ofNullable u.photoURL).orElse (.str "")),
       ("role", .str role),
       ("preferences", .emptyMap),
       ("watchlist", .emptyList),
       ("createdAt", createdAt),
       ("lastLogin", createdAt)]
      additionalData
    match firestoreSetDoc setDoc u.uid data with
    | .ok _ => some (u.uid, data)
    | .error _ => none

/-- `signUp(email, password, displayName)` at time `now`; `displayName = none`
is an omitted argument.  Returns the new user and the document stored for it,
or the error it rethrows. -/
def signUp (b : SignUpBackend) (email password : String) (displayName : Option String)
    (now : Nat) : Except SdkError (AuthUser × Option (String × DocData)) :=
  match b.createUser email password with
  | .error e => .error e
  | .ok user =>
    let additionalData : DocData := [("displayName", FieldValue.ofOptional displayName)]
    if truthy displayName then
      match b.updateProfile user.uid (displayName.getD "") with
      | .error e => .error e
      | .ok _ =>
        let user1 := { user with displayName := displayName }
        .ok (user1, createUserDocument b.setDoc (some user1) additionalData "user" now)
    else
      .ok (user, createUserDocument b.setDoc (some user) additionalData "user" now)

/-- A backend on which every call succeeds. -/
def acceptingSignUp : SignUpBackend :=
  { createUser := fun email _ =>
      .ok { uid := "uid1", email := some email, displayName := none, photoURL := none }
    updateProfile := fun _ _ => .ok ()
    setDoc := fun _ _ => .ok () }

end AuthContext

/-! ## MovieManagement -/

namespace MovieManagement

/-- A movie of the admin list with the fields `handleDelete` reads. -/
structure Movie where
  id : String
  title : String
  poster : Option String
  videoUrl : Option String
  deriving DecidableEq

/-- The `useState` cells of the component that `handleDelete` touches. -/
structure State where
  movies : List Movie
  loading : Bool
  error : String
  deleteConfirm : Option String
  deriving DecidableEq

/-- A call issued to the backend: `deleteObject(ref(storage, path))` or
`deleteDoc(doc(db, "movies", id))`. -/
inductive Call where
  | deleteObject (path : String)
  | deleteDoc (id : String)
  deriving DecidableEq

/-- Whether each backend call resolves (`true`) or rejects. -/
structure Backend where
  deleteObject : String → Bool
  deleteDoc : String → Bool

/-- `v && v.startsWith(pre)`. -/
def ownedUnder (pre : String) (v : Option String) : Bool :=
  truthy v && startsWith (v.getD "") pre

/-- `handleDelete(movieId)`: the state afterwards and the backend calls issued,
in order.  A first press only records the id in `deleteConfirm`; a press that
finds `deleteConfirm` equal to the id runs the deletion, and any thrown error
ends it with "Failed to delete movie". -/
def handleDelete (b : Backend) (movieId : String) (s : State) : State × List Call :=
  if !truthy s.deleteConfirm || s.deleteConfirm != some movieId then
    ({ s with deleteConfirm := some movieId }, [])
  else
    let failed (calls : List Call) : State × List Call :=
      ({ s with error := "Failed to delete movie", loading := false }, calls)
    match s.movies.find? (fun m => m.id == movieId) with
    | none => failed []
    | some movie =>
      let c1 := if ownedUnder "posters/" movie.poster then
        [Call.deleteObject (movie.poster.getD "")] else []
      if ownedUnder "posters/" movie.poster && !b.deleteObject (movie.poster.getD "") then
        failed c1
      else
        let c2 := c1 ++ (if ownedUnder "movies/" movie.videoUrl then
          [Call.deleteObject (movie.videoUrl.getD "")] else [])
        if ownedUnder "movies/" movie.videoUrl && !b.deleteObject (movie.videoUrl.getD "") then
          failed c2
        else
          let c3 := c2 ++ [Call.deleteDoc movieId]
          if !b.deleteDoc movieId then failed c3
          else
            ({ s with
               movies := s.movies.filter (fun movie => movie.id != movieId)
               deleteConfirm := none
               loading := false }, c3)

/-- A backend on which every call resolves. -/
def accepting : Backend :=
  { deleteObject := fun _ => true, deleteDoc := fun _ => true }

/-- An admin list of two movies, the first with an owned poster, the second
with an external poster; `m1` is pending confirmation. -/
def sampleState : State :=
  { movies :=
      [{ id := "m1", title := "One", poster := some "posters/1700000000000-one.jpg",
         videoUrl := some "movies/1700000000000-one.mp4" },
       { id := "m2", title := "Two", poster := some "https://example.com/two.jpg",
         videoUrl := none }]
    loading := false
    error := ""
    deleteConfirm := some "m1" }

end MovieManagement

/-! ## useMovies: update and delete -/

namespace UseMovies

/-- What the hook sends to the backend or the console, in order. -/
inductive Effect where
  | getDoc (id : String)
  | deleteObject (url : String)
  | upload (folder file : String)
  | updateDoc (id : String) (poster : Option String) (videoUrl : String)
  | deleteDoc (id : String)
  | warn (message : String)
  | logError (message : String)
  deriving DecidableEq

/-- The backend behind the hook: `getDoc` gives the snapshot (`none`: the
document does not exist) or rejects, the deletions and the write resolve
(`true`) or reject, and `uploadFile` resolves to a download URL or rejects. -/
structure Backend where
  getDoc : String → Except String (Option MovieRecord)
  deleteObject : String → Bool
  uploadFile : String → String → Option String
  updateDoc : String → Bool
  deleteDoc : String → Bool

/-- What one mutating call of the hook did: the hook state afterwards, the
effects in order, and whether it returned (`true`) or rethrew. -/
structure Outcome where
  state : HookState
  effects : List Effect
  returned : Bool
  deriving DecidableEq

/-- `v && v.includes("firebasestorage")`. -/
def inOurStorage (v : Option String) : Bool :=
  truthy v && includes (v.getD "") "firebasestorage"

/-- The guarded `try { await deleteObject(ref(storage, url)) } catch { warn }`
block: nothing when the asset is not in our storage, else the deletion and,
when it rejects, the warning. -/
def cleanup (b : Backend) (v : Option String) (warning : String) : List Effect :=
  if inOurStorage v then
    [Effect.deleteObject (v.getD "")] ++
      (if b.deleteObject (v.getD "") then [] else [Effect.warn warning])
  else []

/-- `deleteMovie(id)`. -/
def deleteMovie (b : Backend) (id : String) (s : HookState) : Outcome :=
  let s1 := { s with loading := true, error := none }
  let failed (effects : List Effect) : Outcome :=
    { state := { s1 with error := some "Failed to delete movie. Please try again.",
                         loading := false },
      effects := effects ++ [Effect.logError "Error deleting movie:"], returned := false }
  let e1 := [Effect.getDoc id]
  match b.getDoc id with
  | .error _ => failed e1
  | .ok none => failed e1
  | .ok (some movieData) =>
    let e2 := e1 ++ cleanup b movieData.poster "Could not delete poster:"
    let e3 := e2 ++ cleanup b movieData.videoUrl "Could not delete video:"
    let e4 := e3 ++ [Effect.deleteDoc id]
    if !b.deleteDoc id then failed e4
    else
      let s2 := { s1 with movies := s1.movies.filter (fun movie => movie.id != id) }
      let s3 :=
        match s.movie with
        | some m => if m.id = id then { s2 with movie := none } else s2
        | none => s2
      { state := { s3 with loading := false }, effects := e4, returned := true }

/-- The block that replaces an asset: best-effort deletion of the old one,
then `uploadFile(file, folder)`.  Gives the effects and the download URL, or
`none` when the upload rejects. -/
def replaceAsset (b : Backend) (folder file : String) (old : Option String) (warning : String) :
    List Effect × Option String :=
  (cleanup b old warning ++ [Effect.upload folder file], b.uploadFile folder file)

/-- `updateMovie(id, movieData, posterFile, videoFile)`; `title` stands for the
fields of `movieData`, and a file is given by its name. -/
def updateMovie (b : Backend) (id : String) (title : String) (posterFile videoFile : Option String)
    (s : HookState) : Outcome :=
  let s1 := { s with loading := true, error := none, uploadProgress := 0 }
  let failed (effects : List Effect) : Outcome :=
    { state := { s1 with error := some "Failed to update movie. Please try again.",
                         loading := false, uploadProgress := 0 },
      effects := effects ++ [Effect.logError "Error updating movie:"], returned := false }
  let e1 := [Effect.getDoc id]
  match b.getDoc id with
  | .error _ => failed e1
  | .ok none => failed e1
  | .ok (some currentData) =>
    let posterStep : List Effect × Option (Option String) :=
      match posterFile with
      | none => ([], some currentData.poster)
      | some file =>
        let r := replaceAsset b "posters" file currentData.poster "Could not delete old poster:"
        (r.1, r.2.map some)
    let e2 := e1 ++ posterStep.1
    match posterStep.2 with
    | none => failed e2
    | some posterUrl =>
      let videoStep : List Effect × Option String :=
        match videoFile with
        | none => ([], some (if truthy currentData.videoUrl then currentData.videoUrl.getD "" else ""))
        | some file =>
          replaceAsset b "movies" file currentData.videoUrl "Could not delete old video:"
      let e3 := e2 ++ videoStep.1
      match videoStep.2 with
      | none => failed e3
      | some videoUrl =>
        let e4 := e3 ++ [Effect.updateDoc id posterUrl videoUrl]
        if !b.updateDoc id then failed e4
        else
          let merge (m : MovieRecord) : MovieRecord :=
            { m with title := title, poster := posterUrl, videoUrl := some videoUrl }
          let s2 := { s1 with
            movies := s1.movies.map (fun (m : MovieRecord) => if m.id = id then merge m else m) }
          let s3 :=
            match s.movie with
            | some m => if m.id = id then { s2 with movie := some (merge m) } else s2
            | none => s2
          { state := { s3 with loading := false, uploadProgress := 0 }, effects := e4,
            returned := true }

/-- A stored movie whose poster and video are in our storage. -/
def storedMovie : MovieRecord :=
  { id := "m1", title := "One", genre := "Drama", year := 2020,
    poster := some "https://firebasestorage.googleapis.com/v0/b/app/o/posters%2Fone.jpg",
    videoUrl := some "https://firebasestorage.googleapis.com/v0/b/app/o/movies%2Fone.mp4" }

/-- A stored movie whose poster is an external URL and which has no video. -/
def externalMovie : MovieRecord :=
  { id := "m2", title := "Two", genre := "Drama", year := 2021,
    poster := some "https://example.com/two.jpg", videoUrl := none }

/-- A backend holding the two stored movies on which every asset deletion
rejects while uploads and document operations resolve. -/
def flakyStorage : Backend :=
  { getDoc := fun id =>
      if id = "m1" then .ok (some storedMovie)
      else if id = "m2" then .ok (some externalMovie)
      else .ok none
    deleteObject := fun _ => false
    uploadFile := fun folder file => some ("https://firebasestorage.googleapis.com/" ++ folder
      ++ "/" ++ file)
    updateDoc := fun _ => true
    deleteDoc := fun _ => true }

end UseMovies

/-! ## VideoPlayer: loading and control visibility -/

namespace VideoPlayer

/-- What one run of `loadVideo` does to the component, in order. -/
inductive LoadStep where
  | setLoading (value : Bool)
  | assignSrc (url : Option String)
  | setDownloadUrl (url : String)
  | setError (message : String)
  | logError (message : String)
  deriving DecidableEq

/-- `loadVideo()`: `getDownloadURL` resolves a storage path to a URL or rejects
(`none`); `hasVideo` says whether `videoRef.current` is set. -/
def loadVideo (getDownloadURL : String → Option String) (videoUrl : Option String)
    (hasVideo : Bool) : List LoadStep :=
  let start := [LoadStep.setLoading true]
  let resolved : Option (Option String) :=
    if truthy videoUrl && startsWith (videoUrl.getD "") "movies/" then
      (getDownloadURL (videoUrl.getD "")).map some
    else some videoUrl
  match resolved with
  | none =>
    start ++ [LoadStep.logError "Error loading video:",
      LoadStep.setError "Failed to load video. Please try again later.",
      LoadStep.setLoading false]
  | some sourceUrl =>
    let assigned := if hasVideo then [LoadStep.assignSrc sourceUrl] else []
    let download :=
      if truthy videoUrl then
        match getDownloadURL (videoUrl.getD "") with
        | some url => [LoadStep.setDownloadUrl url]
        | none => [LoadStep.logError "Error getting download URL:"]
      else []
    start ++ assigned ++ download ++ [LoadStep.setLoading false]

/-- A storage on which every path resolves. -/
def resolving (path : String) : Option String :=
  some ("https://firebasestorage.googleapis.com/" ++ path)

/-- The controls of the player: the component state and the pending hide
timer, kept as the `isPlaying` value its callback closed over. -/
structure Controls where
  state : State
  timer : Option Bool
  deriving DecidableEq

/-- Events that bear on control visibility. -/
inductive ControlEvent where
  | pointerMove
  | timerExpiry
  | play
  | pause
  deriving DecidableEq

/-- `handleMouseMove`, as registered by the latest effect run (which closed
over the current `isPlaying`): show the controls, clear the pending timer and
start a new one. -/
def handleMouseMove (c : Controls) : Controls :=
  { state := { c.state with showControls := true }, timer := some c.state.isPlaying }

/-- The timer callback `if (isPlaying) setShowControls(false)`, run when a
pending timer expires. -/
def timerExpiry (c : Controls) : Controls :=
  match c.timer with
  | none => c
  | some isPlaying =>
    { state := if isPlaying then { c.state with showControls := false } else c.state,
      timer := none }

/-- A state change followed by the re-render: when a dependency of the effect
changed, its cleanup clears the pending timer before the effect runs again. -/
def rerender (c : Controls) (st : State) : Controls :=
  { state := st, timer := if depsChanged c.state st then none else c.timer }

/-- One control event. -/
def controlStep (c : Controls) : ControlEvent → Controls
  | .pointerMove => handleMouseMove c
  | .timerExpiry => timerExpiry c
  | .play => rerender c (handlePlay c.state)
  | .pause => rerender c (handlePause c.state)

/-- The controls of a freshly mounted player: shown, paused, no timer. -/
def initialControls : Controls := { state := initialState 120, timer := none }

end VideoPlayer

/-! ## AuthContext: roles and profile -/

namespace AuthContext

/-- The `users` collection as far as roles go: for a uid, `none` when there is
no document, else the `role` field of the document (`none` when absent). -/
abbrev RoleStore := String → Option (Option String)

/-- `updateDoc(doc(db, "users", uid), { role, ... })`: rejects when the document
does not exist, else stores the role. -/
def updateRole (store : RoleStore) (uid role : String) : Except String RoleStore :=
  match store uid with
  | none => .error "No document to update"
  | some _ => .ok (fun u => if u = uid then some (some role) else store u)

/-- The `useState` cells of the provider; `user` is kept as the uid of the
signed-in user. -/
structure Provider where
  user : Option String
  isAdmin : Bool
  error : Option String
  loading : Bool
  deriving DecidableEq

/-- The provider together with the `users` collection. -/
structure World where
  provider : Provider
  store : RoleStore

/-- What `setAdminRole` did: the world afterwards, the role writes issued as
`(uid, role)`, and the message of the error it threw, if any. -/
structure RoleOutcome where
  world : World
  writes : List (String × String)
  thrown : Option String

/-- `setAdminRole(uid, makeAdmin)`. -/
def setAdminRole (w : World) (uid : String) (makeAdmin : Bool) : RoleOutcome :=
  let p1 := { w.provider with error := none }
  if !w.provider.isAdmin then
    let message := "Permission denied: Only administrators can change user roles"
    { world := { w with provider := { p1 with error := some message } }, writes := [],
      thrown := some message }
  else
    let role := if makeAdmin then "admin" else "user"
    match updateRole w.store uid role with
    | .ok store1 =>
      { world := { provider := p1, store := store1 }, writes := [(uid, role)], thrown := none }
    | .error message =>
      { world := { w with provider := { p1 with error := some message } },
        writes := [(uid, role)], thrown := some message }

/-- `checkAdminStatus(uid)`: when the document of `uid` exists, `isAdmin` is set
to whether its role is "admin"; otherwise nothing changes. -/
def checkAdminStatus (w : World) (uid : String) : World :=
  match w.store uid with
  | some role => { w with provider := { w.provider with isAdmin := decide (role = some "admin") } }
  | none => w

/-- `logout()`: when `signOut` resolves the user and the admin flag are cleared;
when it rejects only the error is set. -/
def logout (w : World) (signOutOk : Bool) : World :=
  let p1 := { w.provider with error := none }
  if signOutOk then { w with provider := { p1 with user := none, isAdmin := false } }
  else { w with provider := { p1 with error := some "signOut failed" } }

/-- The `onAuthStateChanged` listener for the auth user `authUser` (`none`:
signed out), with its backend calls resolving.  With a document, the role is
`userData.role || "user"` and `isAdmin` is whether it is "admin"; without one,
a document with role "user" is created and `isAdmin` is false.  (When a call
rejects, the `catch` block sets the plain user and `isAdmin` to false.) -/
def authStateChanged (w : World) (authUser : Option String) : World :=
  match authUser with
  | none => { w with provider := { w.provider with user := none, isAdmin := false,
                                                    loading := false } }
  | some uid =>
    match w.store uid with
    | some stored =>
      let role := if truthy stored then stored.getD "" else "user"
      { w with provider := { w.provider with user := some uid, isAdmin := decide (role = "admin"),
                                              loading := false } }
    | none =>
      { provider := { w.provider with user := some uid, isAdmin := false, loading := false }
        store := fun u => if u = uid then some (some "user") else w.store u }

/-- The operations of the provider that read or change `isAdmin` or a role. -/
inductive Op where
  | authStateChanged (authUser : Option String)
  | logout (signOutOk : Bool)
  | checkAdminStatus (uid : String)
  | setAdminRole (uid : String) (makeAdmin : Bool)

/-- One operation. -/
def applyOp (w : World) : Op → World
  | .authStateChanged authUser => authStateChanged w authUser
  | .logout signOutOk => logout w signOutOk
  | .checkAdminStatus uid => checkAdminStatus w uid
  | .setAdminRole uid makeAdmin => (setAdminRole w uid makeAdmin).world

/-- The provider before the first auth-state notification, over a collection
with the administrator `a1` and the plain user `u1`. -/
def initialWorld : World :=
  { provider := { user := none, isAdmin := false, error := none, loading := true }
    store := fun u =>
      if u = "a1" then some (some "admin") else if u = "u1" then some (some "user") else none }

/-- A call `updateUserProfile` issues. -/
inductive ProfileCall where
  | updateProfile (displayName photoURL : FieldValue)
  | updateDoc (uid : String) (update : DocData)
  deriving DecidableEq

/-- `delete data[k]`. -/
def deleteField (d : DocData) (k : String) : DocData := d.filter (fun p => p.1 != k)

/-- `updateUserProfile(data)` at time `now` with both backend calls resolving:
the calls issued in order, or the message of the thrown error.  The role is
deleted from `data` when `data.role` is truthy. -/
def updateUserProfile (currentUser : Option AuthUser) (data : DocData) (now : Nat) :
    Except String (List ProfileCall) :=
  match currentUser with
  | none => .error "No user logged in"
  | some u =>
    let displayName := (getField data "displayName").getD .undefined
    let photoURL := (getField data "photoURL").getD .undefined
    let c1 :=
      if displayName.truthy || photoURL.truthy then
        [ProfileCall.updateProfile (displayName.orElse (FieldValue.ofNullable u.displayName))
          (photoURL.orElse (FieldValue.ofNullable u.photoURL))]
      else []
    let data1 :=
      if ((getField data "role").getD .undefined).truthy then deleteField data "role" else data
    let update := spread data1 [("updatedAt", .time (.isoString now))]
    if update.any (fun p => p.2 == FieldValue.undefined) then
      .error "Unsupported field value: undefined"
    else .ok (c1 ++ [ProfileCall.updateDoc u.uid update])

/-- The stored document after `updateDoc(ref, update)`: each field of the update
replaces or adds the field of that name. -/
def applyUpdate (stored update : DocData) : DocData := spread stored update

/-- A signed-in user. -/
def sampleUser : AuthUser :=
  { uid := "u1", email := some "u@b.com", displayName := some "U", photoURL := none }

end AuthContext

/-! ## useMovies: related movies and ratings -/

namespace UseMovies

/-- An argument handed to `query(collection, ...)`: a constraint built by
`where` or `limit`, or a plain number. -/
inductive QueryArg where
  | whereEq (field value : String)
  | whereNe (field value : String)
  | limitTo (n : Nat)
  | number (n : Nat)
  deriving DecidableEq

/-- Whether an argument is a plain number rather than a constraint. -/
def QueryArg.isNumber : QueryArg → Bool
  | .number _ => true
  | _ => false

/-- `query(...)` as the SDK has it: every argument is applied as a constraint,
and a plain number cannot be applied, which throws. -/
def strictQuery (args : List QueryArg) : Except String (List QueryArg) :=
  if args.any QueryArg.isNumber then .error "TypeError: constraint._apply is not a function"
  else .ok args

/-- A forgiving `query(...)` that skips arguments which are not constraints. -/
def lenientQuery (args : List QueryArg) : Except String (List QueryArg) :=
  .ok (args.filter (fun a => !a.isNumber))

/-- `fetchRelatedMovies(currentMovieId, genre, director, limit)`.  Inside the
function the name `limit` is the numeric parameter, which shadows the imported
constraint builder: the first query receives the number itself, and the call
`limit(limit - relatedMovies.length)` calls a number, a `TypeError`.  Any
thrown error is logged and the result is `[]`. -/
def fetchRelatedMovies (query : List QueryArg → Except String (List QueryArg))
    (getDocs : List QueryArg → Except String (List MovieRecord))
    (currentMovieId genre : String) (director : Option String) (limit : Nat) :
    List MovieRecord :=
  let built :=
    if truthy director then
      query [.whereEq "director" (director.getD ""), .whereNe "__name__" currentMovieId,
        .number limit]
    else
      query [.whereEq "genre" genre, .whereNe "__name__" currentMovieId, .number limit]
  match built with
  | .error _ => []
  | .ok relatedQuery =>
    match getDocs relatedQuery with
    | .error _ => []
    | .ok relatedMovies =>
      if truthy director && decide (relatedMovies.length < limit) then []
      else relatedMovies

/-- Another movie of the director of the current one. -/
def sameDirectorMovie : MovieRecord :=
  { id := "m2", title := "Tenet", genre := "Action", year := 2020, poster := none,
    videoUrl := none }

/-- A backend that answers every query with the one other movie of the
director. -/
def oneRelated (_q : List QueryArg) : Except String (List MovieRecord) :=
  .ok [sameDirectorMovie]

/-- An entry of the `ratings` array of a movie. -/
structure Rating where
  userId : String
  rating : ℚ
  comment : String
  createdAt : Option Nat
  updatedAt : Option Nat
  deriving DecidableEq

/-- `l[i] = f(l[i])` for an index inside the array. -/
def updateAt {α : Type} (f : α → α) : Nat → List α → List α
  | _, [] => []
  | 0, x :: xs => f x :: xs
  | n + 1, x :: xs => x :: updateAt f n xs

/-- `rateMovie(id, userId, rating, comment)` at time `now`.  `getRatings` gives
the `ratings` field of the movie document (outer `none`: no document, inner
`none`: no field) or rejects; `updateDocOk` says whether the write resolves.
Returns the written `ratings` and `averageRating`, or the thrown message. -/
def rateMovie (getRatings : String → Except String (Option (Option (List Rating))))
    (updateDocOk : Bool) (id userId : String) (rating : ℚ) (comment : String) (now : Nat) :
    Except String (List Rating × ℚ) :=
  match getRatings id with
  | .error message => .error message
  | .ok none => .error "Movie not found"
  | .ok (some field) =>
    let ratings := field.getD []
    let existingRatingIndex := AuthContext.findIndex (fun r => r.userId == userId) ratings
    let ratings1 :=
      if existingRatingIndex ≥ 0 then
        updateAt (fun old => { old with rating := rating, comment := comment,
                                        updatedAt := some now })
          existingRatingIndex.toNat ratings
      else
        ratings ++ [{ userId := userId, rating := rating, comment := comment,
                      createdAt := some now, updatedAt := some now }]
    let totalRating := ratings1.foldl (fun (sum : ℚ) r => sum + r.rating) 0
    let averageRating := totalRating / ratings1.length
    if updateDocOk then .ok (ratings1, averageRating) else .error "updateDoc rejected"

/-- Two stored ratings by different users. -/
def sampleRatings : List Rating :=
  [{ userId := "u1", rating := 4, comment := "good", createdAt := some 1, updatedAt := some 1 },
   { userId := "u2", rating := 2, comment := "meh", createdAt := some 2, updatedAt := some 2 }]

end UseMovies

/-! ## VideoPlayer: time display and volume operations -/

namespace VideoPlayer

/-- The JavaScript remainder `x % y`: `x` minus `y` times the quotient rounded
toward zero. -/
def jsRemainder (x y : ℚ) : ℚ :=
  x - y * (if 0 ≤ x / y then (⌊x / y⌋ : ℤ) else (⌈x / y⌉ : ℤ))

/-- `formatTime(time)`: `Math.floor(time / 60)`, a colon, and
`Math.floor(time % 60)` with a leading "0" when it is below 10. -/
def formatTime (time : ℚ) : String :=
  let minutes : ℤ := ⌊time / 60⌋
  let seconds : ℤ := ⌊jsRemainder time 60⌋
  toString minutes ++ ":" ++ (if seconds < 10 then "0" ++ toString seconds else toString seconds)

/-- A use of the volume controls: the slider set to `value`, or the mute
button. -/
inductive VolumeOp where
  | change (value : ℚ)
  | toggle

/-- The handler behind each volume control. -/
def applyVolumeOp (s : State) : VolumeOp → State
  | .change value => handleVolumeChange value s
  | .toggle => toggleMute s

end VideoPlayer

/-! ## Theorems: VideoPlayer -/

namespace VideoPlayer

theorem step_timeUpdate_videoRef (s : Session) (n : Nat) (t : ℚ)
    (hv : s.state.videoRef.isSome = true) :
    (step s (n, Event.timeUpdate t)).state.videoRef.isSome = true := by
  obtain ⟨v, hv⟩ := Option.isSome_iff_exists.mp hv
  simp only [step, handle, handleTimeUpdate, hv, Option.map_some', runEffect]
  split_ifs <;> simp

theorem step_timeUpdate_started (s : Session) (n : Nat) (t : ℚ)
    (hw : s.state.watchStarted = true) :
    (step s (n, Event.timeUpdate t)).state.watchStarted = true ∧
      (step s (n, Event.timeUpdate t)).historyCalls = s.historyCalls := by
  cases hv : s.state.videoRef with
  | none => simp [step, handle, handleTimeUpdate, hv, depsChanged, hw]
  | some v => simp [step, handle, handleTimeUpdate, hv, depsChanged, hw]

theorem step_timeUpdate_fresh (s : Session) (n : Nat) (t : ℚ)
    (hv : s.state.videoRef.isSome = true) (hw : s.state.watchStarted = false) :
    (step s (n, Event.timeUpdate t)).state.watchStarted = decide (30 < t) ∧
      (step s (n, Event.timeUpdate t)).historyCalls
        = s.historyCalls + (if 30 < t then 1 else 0) := by
  obtain ⟨v, hv⟩ := Option.isSome_iff_exists.mp hv
  by_cases ht : 30 < t
  · simp [step, handle, handleTimeUpdate, hv, depsChanged, hw, ht, runEffect]
  · simp [step, handle, handleTimeUpdate, hv, depsChanged, hw, ht]

theorem run_timeUpdates_started (ts : List (Nat × ℚ)) (s : Session)
    (hw : s.state.watchStarted = true) :
    (run s (timeUpdates ts)).historyCalls = s.historyCalls := by
  induction ts generalizing s with
  | nil => rfl
  | cons p ps ih =>
    have h := step_timeUpdate_started s p.1 p.2 hw
    have := ih (step s (p.1, Event.timeUpdate p.2)) h.1
    simpa [run, timeUpdates, h.2] using this

theorem run_timeUpdates_fresh (ts : List (Nat × ℚ)) (s : Session)
    (hv : s.state.videoRef.isSome = true) (hw : s.state.watchStarted = false) :
    (run s (timeUpdates ts)).historyCalls
      = s.historyCalls + (if ∃ p ∈ ts, 30 < p.2 then 1 else 0) := by
  induction ts generalizing s with
  | nil => simp [run, timeUpdates]
  | cons p ps ih =>
    have h := step_timeUpdate_fresh s p.1 p.2 hv hw
    have hv1 := step_timeUpdate_videoRef s p.1 p.2 hv
    have hrun : run s (timeUpdates (p :: ps))
        = run (step s (p.1, Event.timeUpdate p.2)) (timeUpdates ps) := by
      simp [run, timeUpdates]
    rw [hrun]
    by_cases ht : 30 < p.2
    · have hw1 : (step s (p.1, Event.timeUpdate p.2)).state.watchStarted = true := by
        simp [h.1, ht]
      rw [run_timeUpdates_started ps _ hw1, h.2]
      simp [ht]
    · have hw1 : (step s (p.1, Event.timeUpdate p.2)).state.watchStarted = false := by
        simp [h.1, ht]
      have hex : (∃ q ∈ p :: ps, 30 < q.2) ↔ (∃ q ∈ ps, 30 < q.2) := by
        constructor
        · rintro ⟨q, hq, hlt⟩
          rcases List.mem_cons.mp hq with rfl | hq
          · exact absurd hlt ht
          · exact ⟨q, hq, hlt⟩
        · rintro ⟨q, hq, hlt⟩
          exact ⟨q, List.mem_cons_of_mem _ hq, hlt⟩
      rw [ih _ hv1 hw1, h.2, if_neg ht, Nat.add_zero]
      simp only [hex]

/-- C1: in a session that receives only time-update events, `addToWatchHistory`
is called exactly once when some event reports a position strictly above 30
seconds, and never otherwise (a position of exactly 30 does not count),
whatever the number of events. -/
theorem watched_signal_once_for_time_updates (props : Props) (currentUser : Option String)
    (store : Option UserDoc) (duration : ℚ) (now : Nat) (ts : List (Nat × ℚ)) :
    (run (mount props currentUser store duration now) (timeUpdates ts)).historyCalls
      = if ∃ p ∈ ts, 30 < p.2 then 1 else 0 := by
  have h := run_timeUpdates_fresh ts (mount props currentUser store duration now)
    (by simp [mount, runEffect, initialState]) (by simp [mount, runEffect, initialState])
  rw [h]
  simp [mount, runEffect, initialState]

/-- C2: evaluation at a failing input.  In the session `play`, time-update at
31 s, `pause`, the effect calls `addToWatchHistory` twice and each call writes
the user document: once when `watchStarted` turns true, and again when `pause`
changes `isPlaying`, a dependency of the same effect. -/
theorem watched_signal_refires_on_pause :
    (run sampleSession
        [(1, Event.play), (2, Event.timeUpdate 31), (3, Event.pause)]).historyCalls = 2 ∧
    (run sampleSession
        [(1, Event.play), (2, Event.timeUpdate 31), (3, Event.pause)]).historyWrites = 2 ∧
    (run sampleSession [(1, Event.play), (2, Event.timeUpdate 31)]).historyWrites = 1 := by
  simp [run, step, handle, handleTimeUpdate, handlePlay, handlePause, depsChanged, runEffect,
    sampleSession, mount, initialState, addToWatchHistory, arrayUnion, posterOrNull]
  norm_num

/-- C3: with the video element at position `t` of a medium of duration `d`,
`0 ≤ t ≤ d`, `handleBackward` moves it to `max 0 (t - 10)` and `handleForward`
to `min d (t + 10)`; both results lie in `[0, d]`, and a request past a bound
lands on that bound. -/
theorem relative_seek_clamped (s : State) (v : VideoElement) (hs : s.videoRef = some v)
    (hd : 0 ≤ v.duration) (h0 : 0 ≤ v.currentTime) (h1 : v.currentTime ≤ v.duration) :
    position (handleBackward s) = some (max 0 (v.currentTime - 10)) ∧
    position (handleForward s) = some (min v.duration (v.currentTime + 10)) ∧
    (∀ b, position (handleBackward s) = some b →
      0 ≤ b ∧ b ≤ v.duration ∧ (v.currentTime - 10 < 0 → b = 0)) ∧
    (∀ f, position (handleForward s) = some f →
      0 ≤ f ∧ f ≤ v.duration ∧ (v.duration < v.currentTime + 10 → f = v.duration)) := by
  have hb : position (handleBackward s) = some (max 0 (v.currentTime - 10)) := by
    simp [position, handleBackward, hs]
  have hf : position (handleForward s) = some (min v.duration (v.currentTime + 10)) := by
    simp [position, handleForward, hs]
  refine ⟨hb, hf, ?_, ?_⟩
  · intro b hbb
    rw [hb] at hbb
    have hbe : max 0 (v.currentTime - 10) = b := Option.some.inj hbb
    subst hbe
    refine ⟨le_max_left _ _, max_le hd (by linarith), ?_⟩
    intro hlt
    exact max_eq_left (le_of_lt hlt)
  · intro f hff
    rw [hf] at hff
    have hfe : min v.duration (v.currentTime + 10) = f := Option.some.inj hff
    subst hfe
    refine ⟨le_min hd (by linarith), min_le_left _ _, ?_⟩
    intro hlt
    exact min_eq_left (le_of_lt hlt)

theorem relative_seek_clamped_witness :
    position (handleBackward seekSample) = some (max 0 ((45 : ℚ) - 10)) ∧
    position (handleForward seekSample) = some (min (100 : ℚ) (45 + 10)) ∧
    (∀ b, position (handleBackward seekSample) = some b →
      0 ≤ b ∧ b ≤ (100 : ℚ) ∧ ((45 : ℚ) - 10 < 0 → b = 0)) ∧
    (∀ f, position (handleForward seekSample) = some f →
      0 ≤ f ∧ f ≤ (100 : ℚ) ∧ ((100 : ℚ) < 45 + 10 → f = 100)) :=
  relative_seek_clamped seekSample
    { currentTime := 45, duration := 100, volume := 1, muted := false, prevVolume := none }
    rfl (by norm_num) (by norm_num) (by norm_num)

/-- C4: evaluation at failing inputs.  On a track with left edge 100 and width
400 over a 120 second medium, a click at `clientX = 510` (on the handle, which
overhangs the right end of the track when playback is at the end) assigns the
position `123`, and a click reported at `clientX = 0` assigns `-30`: the
assigned value is not clamped to `[0, 120]`. -/
theorem progress_click_not_clamped :
    position (handleProgressClick 510 100 400 endSample) = some 123 ∧
    position (handleProgressClick 0 100 400 (initialState 120)) = some (-30) ∧
    ¬ (∀ (clientX left width d : ℚ), 0 < width → 0 ≤ d →
        ∀ p, position (handleProgressClick clientX left width (initialState d)) = some p →
          0 ≤ p ∧ p ≤ d) := by
  have h1 : position (handleProgressClick 0 100 400 (initialState 120)) = some (-30) := by
    simp [position, handleProgressClick, initialState]
    norm_num
  refine ⟨?_, h1, ?_⟩
  · simp [position, handleProgressClick, endSample, initialState]
    norm_num
  · intro h
    have := (h 0 100 400 120 (by norm_num) (by norm_num) (-30) h1).1
    norm_num at this

/-- C5: from an unmuted player at volume `v`, `0 < v ≤ 1`, with the video element
present, `toggleMute` gives `isMuted = true` and displayed volume 0, and a
second `toggleMute` gives `isMuted = false` and volume `v` again (in the state
and on the element). -/
theorem mute_then_unmute_restores_volume (s : State) (el : VideoElement) (v : ℚ)
    (hs : s.videoRef = some el) (hm : s.isMuted = false) (hv : s.volume = v)
    (_hpos : 0 < v) (_hle : v ≤ 1) :
    (toggleMute s).isMuted = true ∧ (toggleMute s).volume = 0 ∧
    (toggleMute (toggleMute s)).isMuted = false ∧
    (toggleMute (toggleMute s)).volume = v ∧
    (toggleMute (toggleMute s)).videoRef.map (fun e => e.volume) = some v := by
  subst hv
  simp [toggleMute, hs, hm]

theorem mute_then_unmute_restores_volume_witness :
    (toggleMute volumeSample).isMuted = true ∧ (toggleMute volumeSample).volume = 0 ∧
    (toggleMute (toggleMute volumeSample)).isMuted = false ∧
    (toggleMute (toggleMute volumeSample)).volume = 3 / 5 ∧
    (toggleMute (toggleMute volumeSample)).videoRef.map (fun e => e.volume) = some (3 / 5) :=
  mute_then_unmute_restores_volume volumeSample
    { currentTime := 0, duration := 100, volume := 1, muted := false, prevVolume := none }
    (3 / 5) rfl rfl rfl (by norm_num) (by norm_num)

/-- C6: for `v` in `[0, 1]`, `handleVolumeChange v` sets the volume to `v` and
`isMuted` to true exactly when `v = 0`; choosing 0 on the slider gives the same
displayed pair `(volume, isMuted) = (0, true)` as `toggleMute` on an unmuted
player with its video element present. -/
theorem volume_change_zero_is_mute (v : ℚ) (_h0 : 0 ≤ v) (_h1 : v ≤ 1) (s u : State)
    (el : VideoElement) (hu : u.videoRef = some el) (hm : u.isMuted = false) :
    (handleVolumeChange v s).volume = v ∧
    ((handleVolumeChange v s).isMuted = true ↔ v = 0) ∧
    ((handleVolumeChange 0 s).volume, (handleVolumeChange 0 s).isMuted) = (0, true) ∧
    ((handleVolumeChange 0 s).volume, (handleVolumeChange 0 s).isMuted)
      = ((toggleMute u).volume, (toggleMute u).isMuted) := by
  have hvol : ∀ x : ℚ, (handleVolumeChange x s).volume = x := by
    intro x
    cases hsv : s.videoRef <;> simp [handleVolumeChange, hsv]
  have hmut : ∀ x : ℚ, (handleVolumeChange x s).isMuted = decide (x = 0) := by
    intro x
    cases hsv : s.videoRef <;> simp [handleVolumeChange, hsv]
  refine ⟨hvol v, ?_, ?_, ?_⟩
  · rw [hmut v]
    simp
  · rw [hvol 0, hmut 0]
    simp
  · rw [hvol 0, hmut 0]
    simp [toggleMute, hu, hm]

theorem volume_change_zero_is_mute_witness :
    (handleVolumeChange (1 / 4) volumeSample).volume = 1 / 4 ∧
    ((handleVolumeChange (1 / 4) volumeSample).isMuted = true ↔ (1 / 4 : ℚ) = 0) ∧
    ((handleVolumeChange 0 volumeSample).volume, (handleVolumeChange 0 volumeSample).isMuted)
      = (0, true) ∧
    ((handleVolumeChange 0 volumeSample).volume, (handleVolumeChange 0 volumeSample).isMuted)
      = ((toggleMute seekSample).volume, (toggleMute seekSample).isMuted) :=
  volume_change_zero_is_mute (1 / 4) (by norm_num) (by norm_num) volumeSample seekSample
    { currentTime := 45, duration := 100, volume := 1, muted := false, prevVolume := none }
    rfl rfl

end VideoPlayer

/-! ## Theorems: watchlist -/

namespace AuthContext

theorem findIndex_ge_neg_one {α : Type} (p : α → Bool) (l : List α) : -1 ≤ findIndex p l := by
  induction l with
  | nil => simp [findIndex]
  | cons x xs ih =>
    simp only [findIndex]
    split_ifs <;> omega

theorem findIndex_nonneg_iff {α : Type} (p : α → Bool) (l : List α) :
    0 ≤ findIndex p l ↔ ∃ x ∈ l, p x = true := by
  induction l with
  | nil => simp [findIndex]
  | cons x xs ih =>
    simp only [findIndex, List.mem_cons, exists_eq_or_imp]
    by_cases hx : p x = true
    · simp [hx]
    · have hge := findIndex_ge_neg_one p xs
      simp only [hx, false_or, Bool.false_eq_true, if_false]
      rw [← ih]
      split_ifs <;> omega

theorem toggleWatchlist_present (uid : String) (userData : UserDoc) (m : String)
    (movieData : MovieData) (now : Nat) (hm : hasMovie m (userData.watchlist.getD [])) :
    toggleWatchlist (some uid) (some userData) m movieData now
      = .ok ({ userData with
                watchlist := some ((userData.watchlist.getD []).filter
                  (fun item => item.movieId != m)) },
             (userData.watchlist.getD []).filter (fun item => item.movieId != m)) := by
  have h : 0 ≤ findIndex (fun item : WatchlistItem => item.movieId == m)
      (userData.watchlist.getD []) := by
    rw [findIndex_nonneg_iff]
    simpa [hasMovie] using hm
  simp only [toggleWatchlist, ge_iff_le]
  rw [if_pos h]

theorem toggleWatchlist_absent (uid : String) (userData : UserDoc) (m : String)
    (movieData : MovieData) (now : Nat) (hm : ¬ hasMovie m (userData.watchlist.getD [])) :
    toggleWatchlist (some uid) (some userData) m movieData now
      = .ok ({ userData with
                watchlist := some (userData.watchlist.getD [] ++
                  [{ movieId := m, title := movieData.title, poster := movieData.poster,
                     addedAt := .isoString now }]) },
             userData.watchlist.getD [] ++
               [{ movieId := m, title := movieData.title, poster := movieData.poster,
                  addedAt := .isoString now }]) := by
  have h : ¬ 0 ≤ findIndex (fun item : WatchlistItem => item.movieId == m)
      (userData.watchlist.getD []) := by
    rw [findIndex_nonneg_iff]
    simpa [hasMovie] using hm
  simp only [toggleWatchlist, ge_iff_le]
  rw [if_neg h]

theorem filter_ne_of_not_hasMovie (m : String) (l : List WatchlistItem)
    (hm : ¬ hasMovie m l) : l.filter (fun item => item.movieId != m) = l := by
  apply List.filter_eq_self.mpr
  intro item hitem
  have : item.movieId ≠ m := fun h => hm ⟨item, hitem, h⟩
  simpa using this

/-- C7: for a stored watchlist `L` without an entry for movie `m`,
`toggleWatchlist(m, data)` succeeds and adds, a following `toggleWatchlist(m,
data2)` succeeds and removes, and the list written back by the second call is
`L`. -/
theorem toggle_twice_restores_watchlist (uid : String) (userData : UserDoc)
    (L : List WatchlistItem) (m : String) (data data2 : MovieData) (now now2 : Nat)
    (hL : userData.watchlist.getD [] = L) (hm : ∀ item ∈ L, item.movieId ≠ m) :
    ∃ doc1 w1 doc2 w2,
      toggleWatchlist (some uid) (some userData) m data now = .ok (doc1, w1) ∧
      w1 = L ++ [{ movieId := m, title := data.title, poster := data.poster,
                   addedAt := .isoString now }] ∧
      toggleWatchlist (some uid) (some doc1) m data2 now2 = .ok (doc2, w2) ∧
      w2 = L ∧ doc2.watchlist = some L := by
  subst hL
  have habs : ¬ hasMovie m (userData.watchlist.getD []) := by
    rintro ⟨item, hitem, h⟩
    exact hm item hitem h
  have h1 := toggleWatchlist_absent uid userData m data now habs
  have hpres : hasMovie m (Option.getD
      (some (userData.watchlist.getD [] ++
        [({ movieId := m, title := data.title, poster := data.poster,
            addedAt := .isoString now } : WatchlistItem)])) []) := by
    refine ⟨{ movieId := m, title := data.title, poster := data.poster,
              addedAt := .isoString now }, ?_, rfl⟩
    simp
  have h2 := toggleWatchlist_present uid
    { userData with
      watchlist := some (userData.watchlist.getD [] ++
        [{ movieId := m, title := data.title, poster := data.poster,
           addedAt := .isoString now }]) } m data2 now2 hpres
  have hfilter : (Option.getD
      (some (userData.watchlist.getD [] ++
        [({ movieId := m, title := data.title, poster := data.poster,
            addedAt := .isoString now } : WatchlistItem)])) []).filter
        (fun item => item.movieId != m) = userData.watchlist.getD [] := by
    simp only [Option.getD_some, List.filter_append]
    rw [filter_ne_of_not_hasMovie m _ habs]
    simp
  rw [hfilter] at h2
  exact ⟨_, _, _, _, h1, rfl, h2, rfl, rfl⟩

theorem toggle_twice_restores_watchlist_witness :
    ∃ doc1 w1 doc2 w2,
      toggleWatchlist (some "u1")
        (some { watchlist := some [{ movieId := "m0", title := "Zero", poster := none,
                                     addedAt := .isoString 5 }],
                watchHistory := none }) "m1" { title := "One", poster := none } 10
        = .ok (doc1, w1) ∧
      w1 = [{ movieId := "m0", title := "Zero", poster := none, addedAt := .isoString 5 }] ++
        [{ movieId := "m1", title := "One", poster := none, addedAt := .isoString 10 }] ∧
      toggleWatchlist (some "u1") (some doc1) "m1" { title := "Uno", poster := some "p" } 20
        = .ok (doc2, w2) ∧
      w2 = [{ movieId := "m0", title := "Zero", poster := none, addedAt := .isoString 5 }] ∧
      doc2.watchlist
        = some [{ movieId := "m0", title := "Zero", poster := none, addedAt := .isoString 5 }] :=
  toggle_twice_restores_watchlist "u1"
    { watchlist := some [{ movieId := "m0", title := "Zero", poster := none,
                           addedAt := .isoString 5 }],
      watchHistory := none }
    [{ movieId := "m0", title := "Zero", poster := none, addedAt := .isoString 5 }]
    "m1" { title := "One", poster := none } { title := "Uno", poster := some "p" } 10 20
    rfl (by decide)

/-- C9: executed without interleaving on a stored watchlist with at most one
entry per `movieId`, `toggleWatchlist` succeeds, writes back the list it
returns, that list again has at most one entry per `movieId`, and it contains
movie `m` exactly when the stored list did not. -/
theorem toggle_preserves_unique_movie_ids (uid : String) (userData : UserDoc) (m : String)
    (data : MovieData) (now : Nat) (hU : UniqueMovieIds (userData.watchlist.getD [])) :
    ∃ doc w,
      toggleWatchlist (some uid) (some userData) m data now = .ok (doc, w) ∧
      doc.watchlist = some w ∧ UniqueMovieIds w ∧
      (hasMovie m w ↔ ¬ hasMovie m (userData.watchlist.getD [])) := by
  by_cases hm : hasMovie m (userData.watchlist.getD [])
  · refine ⟨_, _, toggleWatchlist_present uid userData m data now hm, rfl, ?_, ?_⟩
    · exact List.Nodup.sublist (List.Sublist.map _ (List.filter_sublist _)) hU
    · constructor
      · rintro ⟨item, hitem, hid⟩
        have := (List.mem_filter.mp hitem).2
        simp [hid] at this
      · intro h
        exact absurd hm h
  · refine ⟨_, _, toggleWatchlist_absent uid userData m data now hm, rfl, ?_, ?_⟩
    · unfold UniqueMovieIds at hU ⊢
      rw [List.map_append, List.nodup_append]
      refine ⟨hU, by simp, ?_⟩
      intro a ha hb
      simp only [List.map_cons, List.map_nil, List.mem_singleton] at hb
      subst hb
      obtain ⟨item, hitem, hid⟩ := List.mem_map.mp ha
      exact hm ⟨item, hitem, hid⟩
    · constructor
      · intro _
        exact hm
      · intro _
        exact ⟨_, List.mem_append_right _ (List.mem_singleton_self _), rfl⟩

theorem toggle_preserves_unique_movie_ids_witness :
    ∃ doc w,
      toggleWatchlist (some "u1")
        (some { watchlist := some [{ movieId := "m0", title := "Zero", poster := none,
                                     addedAt := .isoString 5 }],
                watchHistory := none }) "m0" { title := "Zero", poster := none } 10
        = .ok (doc, w) ∧
      doc.watchlist = some w ∧ UniqueMovieIds w ∧
      (hasMovie "m0" w ↔ ¬ hasMovie "m0"
        (Option.getD (some [({ movieId := "m0", title := "Zero", poster := none,
                               addedAt := .isoString 5 } : WatchlistItem)]) [])) :=
  toggle_preserves_unique_movie_ids "u1"
    { watchlist := some [{ movieId := "m0", title := "Zero", poster := none,
                           addedAt := .isoString 5 }],
      watchHistory := none }
    "m0" { title := "Zero", poster := none } 10 (by decide)

end AuthContext

namespace MovieDetailsPage

/-- C8: evaluation at a failing input.  From an empty stored watchlist, a press
at time 1000 (add) and a press at time 2000 (remove) both succeed, the flag is
back to false, and the stored watchlist still holds the entry stamped 1000: the
`arrayRemove` argument carries the time of the second press and equals no
stored entry. -/
theorem details_toggle_twice_keeps_entry :
    (presses (some "u1") [1000, 2000] (samplePage [])).2
      = some { watchlist := some [{ movieId := "m1", title := "One", poster := none,
                                    addedAt := .date 1000 }],
               watchHistory := none } ∧
    (presses (some "u1") [1000, 2000] (samplePage [])).1.inWatchlist = false ∧
    (presses (some "u1") [1000, 2000] (samplePage [])).2 ≠ (samplePage []).2 := by
  decide

/-- C10: evaluation at a failing input.  From an empty stored watchlist (one
entry per `movieId` holds trivially, `inWatchlist` initialised to false), the
three sequential presses at times 1000, 2000, 3000 leave two stored entries for
movie `m1`. -/
theorem details_toggle_sequence_duplicates :
    UniqueMovieIds [] ∧ (samplePage []).1.inWatchlist = false ∧
    (presses (some "u1") [1000, 2000, 3000] (samplePage [])).2
      = some { watchlist := some
                [{ movieId := "m1", title := "One", poster := none, addedAt := .date 1000 },
                 { movieId := "m1", title := "One", poster := none, addedAt := .date 3000 }],
               watchHistory := none } ∧
    ¬ UniqueMovieIds
      (((presses (some "u1") [1000, 2000, 3000] (samplePage [])).2.bind
        (fun d => d.watchlist)).getD []) := by
  decide

end MovieDetailsPage

/-! ## Theorems: useMovies -/

namespace UseMovies

theorem fetchMovies_hasMore (getDocs : Query → Except String (List MovieRecord))
    (o : FetchOptions) (s : HookState) (docs : List MovieRecord)
    (h : getDocs (buildQuery o s.lastVisible) = .ok docs) :
    (fetchMovies getDocs o s).1.hasMore
      = (decide (¬ docs.length < o.itemsPerPage) && (o.resetPagination || s.hasMore)) := by
  simp only [fetchMovies, h]
  by_cases hr : o.resetPagination = true <;> by_cases hk : docs.length < o.itemsPerPage <;>
    simp [hr, hk]

/-- C11, as the code has it: after a successful `fetchMovies` with page size
`N ≥ 1` that got `k ≤ N` documents, `hasMore` is true exactly when `k = N` and
either the call reset pagination or `hasMore` was true before the call. -/
theorem fetch_hasMore_iff_full_page_and_open (getDocs : Query → Except String (List MovieRecord))
    (o : FetchOptions) (s : HookState) (docs : List MovieRecord)
    (h : getDocs (buildQuery o s.lastVisible) = .ok docs)
    (_hN : 1 ≤ o.itemsPerPage) (hk : docs.length ≤ o.itemsPerPage) :
    (fetchMovies getDocs o s).2 = docs ∧
    ((fetchMovies getDocs o s).1.hasMore = true ↔
      docs.length = o.itemsPerPage ∧ (o.resetPagination = true ∨ s.hasMore = true)) := by
  refine ⟨by simp [fetchMovies, h], ?_⟩
  rw [fetchMovies_hasMore getDocs o s docs h]
  simp only [Bool.and_eq_true, Bool.or_eq_true, decide_eq_true_eq, not_lt]
  constructor
  · rintro ⟨h1, h2⟩
    exact ⟨le_antisymm hk h1, h2⟩
  · rintro ⟨h1, h2⟩
    exact ⟨h1.ge, h2⟩

theorem fetch_hasMore_iff_full_page_and_open_witness :
    (fetchMovies (catalogBackend sampleCatalog) { itemsPerPage := 1 } initialHook).2
      = sampleCatalog ∧
    ((fetchMovies (catalogBackend sampleCatalog) { itemsPerPage := 1 } initialHook).1.hasMore
        = true ↔
      sampleCatalog.length = 1 ∧ (false = true ∨ initialHook.hasMore = true)) :=
  fetch_hasMore_iff_full_page_and_open (catalogBackend sampleCatalog) { itemsPerPage := 1 }
    initialHook sampleCatalog rfl (by decide) (by decide)

/-- C11, counterexample: on a one-movie catalog, a first call with the default
page size 12 gets one document and clears `hasMore`; a following call with page
size 1 (no reset) succeeds and gets exactly one document, a full page, and
`hasMore` is still false. -/
theorem fetch_full_page_hasMore_false :
    afterShortPage.hasMore = false ∧
    (fetchMovies (catalogBackend sampleCatalog) { itemsPerPage := 1 } afterShortPage).2.length
      = 1 ∧
    (fetchMovies (catalogBackend sampleCatalog) { itemsPerPage := 1 } afterShortPage).1.error
      = none ∧
    ¬ ((fetchMovies (catalogBackend sampleCatalog) { itemsPerPage := 1 }
          afterShortPage).1.hasMore = true ↔
        (fetchMovies (catalogBackend sampleCatalog) { itemsPerPage := 1 }
          afterShortPage).2.length = 1) := by
  decide

theorem prefix_of_between (q t s : List Char) (h1 : ¬ t < q) (h2 : ¬ (q ++ s) < t) :
    q <+: t := by
  induction q generalizing t with
  | nil => exact List.nil_prefix
  | cons a q ih =>
    cases t with
    | nil => exact absurd List.Lex.nil h1
    | cons b t =>
      have hab : a = b := by
        rcases lt_trichotomy a b with h | h | h
        · exact absurd (List.Lex.rel h) h2
        · exact h
        · exact absurd (List.Lex.rel h) h1
      subst hab
      have h1' : ¬ t < q := fun h => h1 (List.Lex.cons h)
      have h2' : ¬ (q ++ s) < t := fun h => h2 (List.Lex.cons h)
      exact (List.prefix_cons_inj a).mpr (ih t h1' h2')

theorem searchConditions_holds_iff (q : String) (m : MovieRecord) :
    (∀ c ∈ searchConditions q, c.holds m) ↔
      ¬ m.title.data < q.data ∧ ¬ (q.data ++ [upperBoundChar]) < m.title.data := by
  have hdata : (q ++ "\uf8ff").data = q.data ++ [upperBoundChar] := rfl
  simp only [searchConditions, List.mem_cons, List.mem_singleton, forall_eq_or_imp, forall_eq,
    Condition.holds, List.not_mem_nil, false_imp_iff, implies_true, and_true]
  rw [← not_lt, ← not_lt, String.lt_iff_toList_lt, String.lt_iff_toList_lt]
  simp only [String.toList, hdata]

/-- C12: a title that satisfies the two clauses of a search for `q`, namely
`q ≤ title` and `title ≤ q` followed by U+F8FF in code-point order, begins with
`q` character for character (so with the same case). -/
theorem search_range_sound (q : String) (m : MovieRecord)
    (h : ∀ c ∈ searchConditions q, c.holds m) : ∃ r : String, m.title = q ++ r := by
  obtain ⟨h1, h2⟩ := (searchConditions_holds_iff q m).mp h
  obtain ⟨r, hr⟩ := prefix_of_between q.data m.title.data _ h1 h2
  exact ⟨⟨r⟩, by
    apply String.ext
    simp [← hr]⟩

theorem search_range_sound_witness : ∃ r : String, "Alien" = "Al" ++ r :=
  search_range_sound "Al"
    { id := "m1", title := "Alien", genre := "Horror", year := 1979, poster := none,
      videoUrl := none }
    (by
      rw [searchConditions_holds_iff]
      decide)

end UseMovies

namespace UseMovies

theorem lex_append_left_iff (q a b : List Char) : q ++ a < q ++ b ↔ a < b := by
  induction q with
  | nil => simp
  | cons c q ih =>
    constructor
    · intro h
      exact ih.mp (List.Lex.cons_iff.mp h)
    · intro h
      exact List.Lex.cons_iff.mpr (ih.mpr h)

theorem not_append_lt_self (q r : List Char) : ¬ q ++ r < q := by
  intro h
  have h1 : q ++ r < q ++ [] := by simpa using h
  have h2 : r < [] := (lex_append_left_iff q r []).mp h1
  cases h2

theorem singleton_lt_iff (c : Char) (r : List Char) :
    [c] < r ↔ ∃ d rest, r = d :: rest ∧ (c < d ∨ (c = d ∧ rest ≠ [])) := by
  constructor
  · intro h
    cases h with
    | rel hlt => exact ⟨_, _, rfl, Or.inl hlt⟩
    | cons htail =>
      refine ⟨_, _, rfl, Or.inr ⟨rfl, ?_⟩⟩
      rintro rfl
      cases htail
  · rintro ⟨d, rest, rfl, h | ⟨rfl, hne⟩⟩
    · exact List.Lex.rel h
    · cases rest with
      | nil => exact absurd rfl hne
      | cons e rest => exact List.Lex.cons List.Lex.nil

/-- C13, as the code has it: a title `q ++ r` satisfies the two clauses of a
search for `q` exactly when the remainder `r` is empty, or is the single
character U+F8FF, or starts with a character below U+F8FF.  So every title with
prefix `q` whose next character is below U+F8FF is eligible, and titles that
continue with a higher character are not. -/
theorem search_range_complete_below_bound (q r : String) (m : MovieRecord)
    (ht : m.title = q ++ r) :
    (∀ c ∈ searchConditions q, c.holds m) ↔
      (r = "" ∨ r = "\uf8ff" ∨ ∃ d rest, r.data = d :: rest ∧ d < upperBoundChar) := by
  rw [searchConditions_holds_iff, ht]
  have hdata : (q ++ r).data = q.data ++ r.data := rfl
  rw [hdata, lex_append_left_iff, singleton_lt_iff]
  have hnot : ¬ q.data ++ r.data < q.data := not_append_lt_self q.data r.data
  simp only [hnot, not_false_eq_true, true_and]
  have hr_empty : r = "" ↔ r.data = [] := by
    constructor
    · rintro rfl
      rfl
    · intro h
      exact String.ext h
  have hr_bound : r = "\uf8ff" ↔ r.data = [upperBoundChar] := by
    constructor
    · rintro rfl
      rfl
    · intro h
      exact String.ext h
  rw [hr_empty, hr_bound]
  cases hrd : r.data with
  | nil => simp
  | cons d rest =>
    simp only [List.cons.injEq, exists_and_right, not_exists, not_and, not_or, reduceCtorEq,
      false_or]
    constructor
    · intro h
      have h1 := (h d rest ⟨rfl, rfl⟩)
      rcases lt_trichotomy d upperBoundChar with hlt | heq | hgt
      · exact Or.inr ⟨d, ⟨rest, rfl, rfl⟩, hlt⟩
      · refine Or.inl ⟨heq, ?_⟩
        by_contra hne
        exact h1.2 heq.symm hne
      · exact absurd hgt h1.1
    · rintro (⟨hd, hrest⟩ | ⟨d2, ⟨rest2, hd2, _⟩, hlt⟩)
      · rintro x y ⟨hx, hy⟩
        subst hx hy hd hrest
        exact ⟨lt_irrefl _, fun _ hne => hne rfl⟩
      · rintro x y ⟨hx, hy⟩
        subst hx hy hd2
        exact ⟨not_lt_of_lt hlt, fun heq => absurd heq (ne_of_gt hlt)⟩

theorem search_range_complete_below_bound_witness :
    (∀ c ∈ searchConditions "Al", c.holds (sampleCatalog.headD fullwidthTitle)) ↔
      (("ien" : String) = "" ∨ ("ien" : String) = "\uf8ff" ∨
        ∃ d rest, ("ien" : String).data = d :: rest ∧ d < upperBoundChar) :=
  search_range_complete_below_bound "Al" "ien" (sampleCatalog.headD fullwidthTitle) (by decide)

/-- C13, counterexample: the title `K-On` followed by the fullwidth exclamation
mark U+FF01 begins with `K-On`, yet it fails the upper clause of a search for
`K-On`, because U+FF01 is above U+F8FF. -/
theorem search_range_misses_high_code_point :
    fullwidthTitle.title = "K-On" ++ "\uff01" ∧
    ("K-On" : String) ≤ fullwidthTitle.title ∧
    ¬ fullwidthTitle.title ≤ "K-On" ++ "\uf8ff" ∧
    ¬ (∀ c ∈ searchConditions "K-On", c.holds fullwidthTitle) := by
  refine ⟨by decide, ?_, ?_, ?_⟩
  · rw [String.le_iff_toList_le]
    decide
  · rw [String.le_iff_toList_le]
    decide
  · rw [searchConditions_holds_iff]
    decide

end UseMovies

/-! ## Theorems: sign-in and sign-up -/

namespace LoginPage

theorem attempt_error_of_signIn_error (b : Backend) (email password : String) (e : SdkError)
    (h : b.signIn email password = .error e) : attempt b email password = .error e := by
  simp [attempt, h]

/-- C14: when the `try` block of `handleSubmit` fails with error `e` (a rejected
sign-in in particular), the error shown is "Invalid email or password" for the
codes `auth/user-not-found` and `auth/wrong-password`, "Too many failed login
attempts. Please try again later" for `auth/too-many-requests`, and "Failed to
sign in" for every other failure; nothing is navigated to and `loading` ends
false. -/
theorem login_failure_fixed_message (b : Backend) (s : PageState) (e : SdkError)
    (h : attempt b s.email s.password = .error e) :
    (handleSubmit b s).2 = none ∧
    (handleSubmit b s).1.loading = false ∧
    (e.code = some "auth/user-not-found" ∨ e.code = some "auth/wrong-password" →
      (handleSubmit b s).1.error = "Invalid email or password") ∧
    (e.code = some "auth/too-many-requests" →
      (handleSubmit b s).1.error = "Too many failed login attempts. Please try again later") ∧
    (e.code ≠ some "auth/user-not-found" → e.code ≠ some "auth/wrong-password" →
      e.code ≠ some "auth/too-many-requests" →
      (handleSubmit b s).1.error = "Failed to sign in") := by
  have hs : handleSubmit b s
      = ({ s with error := errorMessage e.code, loading := false }, none) := by
    simp [handleSubmit, h]
  refine ⟨by rw [hs], by rw [hs], ?_, ?_, ?_⟩
  · intro hc
    rw [hs]
    simp only [errorMessage]
    rw [if_pos hc]
  · intro hc
    rw [hs]
    simp only [errorMessage, hc]
    decide
  · intro h1 h2 h3
    rw [hs]
    simp only [errorMessage]
    rw [if_neg (by
      rintro (hc | hc)
      · exact h1 hc
      · exact h2 hc), if_neg h3]

theorem login_failure_fixed_message_witness :
    (handleSubmit (rejecting (some "auth/wrong-password"))
      { email := "a@b.com", password := "nope", error := "", loading := false }).2 = none ∧
    (handleSubmit (rejecting (some "auth/wrong-password"))
      { email := "a@b.com", password := "nope", error := "", loading := false }).1.loading
      = false ∧
    ((some "auth/wrong-password" : Option String) = some "auth/user-not-found" ∨
        (some "auth/wrong-password" : Option String) = some "auth/wrong-password" →
      (handleSubmit (rejecting (some "auth/wrong-password"))
        { email := "a@b.com", password := "nope", error := "", loading := false }).1.error
        = "Invalid email or password") ∧
    ((some "auth/wrong-password" : Option String) = some "auth/too-many-requests" →
      (handleSubmit (rejecting (some "auth/wrong-password"))
        { email := "a@b.com", password := "nope", error := "", loading := false }).1.error
        = "Too many failed login attempts. Please try again later") ∧
    ((some "auth/wrong-password" : Option String) ≠ some "auth/user-not-found" →
      (some "auth/wrong-password" : Option String) ≠ some "auth/wrong-password" →
      (some "auth/wrong-password" : Option String) ≠ some "auth/too-many-requests" →
      (handleSubmit (rejecting (some "auth/wrong-password"))
        { email := "a@b.com", password := "nope", error := "", loading := false }).1.error
        = "Failed to sign in") :=
  login_failure_fixed_message (rejecting (some "auth/wrong-password"))
    { email := "a@b.com", password := "nope", error := "", loading := false }
    { code := some "auth/wrong-password" }
    (attempt_error_of_signIn_error _ _ _ _ rfl)

end LoginPage

namespace SignupPage

theorem handleSubmit_navigated (b : Backend) (now : Nat) (s : PageState) (route : String)
    (h : (handleSubmit b now s).navigated = some route) :
    ∃ uid, (handleSubmit b now s).written = some (uid, userDocument s.name s.email now) := by
  unfold handleSubmit at h ⊢
  by_cases h1 : s.password ≠ s.confirmPassword
  · simp [h1] at h
  · by_cases h2 : jsLength s.password < 6
    · simp [h1, h2] at h
    · simp only [h1, h2, if_false] at h ⊢
      cases hc : b.createUser s.email s.password with
      | error e => simp [hc] at h
      | ok uid =>
        cases hu : b.updateProfile uid s.name with
        | error e => simp [hc, hu] at h
        | ok u =>
          cases hd : firestoreSetDoc b.setDoc uid (userDocument s.name s.email now) with
          | error e => simp [hc, hu, hd] at h
          | ok u2 => exact ⟨uid, by simp [hc, hu, hd]⟩

end SignupPage

namespace AuthContext

theorem createUserDocument_role (setDoc : String → DocData → Except SdkError Unit)
    (user : Option AuthUser) (v : FieldValue) (role : String) (now : Nat) (uid : String)
    (d : DocData)
    (h : createUserDocument setDoc user [("displayName", v)] role now = some (uid, d)) :
    getField d "role" = some (.str role) ∧ getField d "watchlist" = some .emptyList := by
  cases user with
  | none => simp [createUserDocument] at h
  | some u =>
    simp only [createUserDocument] at h
    split at h
    · simp only [Option.some.injEq, Prod.mk.injEq] at h
      obtain ⟨-, rfl⟩ := h
      constructor <;> rfl
    · simp at h

theorem createUserDocument_written (setDoc : String → DocData → Except SdkError Unit)
    (u : AuthUser) (name : String) (role : String) (now : Nat)
    (hset : ∀ uid d, setDoc uid d = .ok ()) :
    (createUserDocument setDoc (some u) [("displayName", .str name)] role now).isSome = true := by
  simp only [createUserDocument]
  have : firestoreSetDoc setDoc u.uid
      (spread
        [("uid", .str u.uid), ("email", FieldValue.ofNullable u.email),
         ("displayName",
           (FieldValue.ofNullable u.displayName).orElse
             (((getField [("displayName", FieldValue.str name)] "displayName").getD
               .undefined).orElse (.str ""))),
         ("photoURL", (FieldValue.ofNullable u.photoURL).orElse (.str "")),
         ("role", .str role), ("preferences", .emptyMap), ("watchlist", .emptyList),
         ("createdAt", FieldValue.time (.isoString now)),
         ("lastLogin", FieldValue.time (.isoString now))]
        [("displayName", .str name)]) = .ok () := by
    have hnull : ∀ o : Option String, (FieldValue.ofNullable o == FieldValue.undefined) = false := by
      intro o
      cases o <;> rfl
    have horElse : ∀ o : Option String,
        (((FieldValue.ofNullable o).orElse (.str "")) == FieldValue.undefined) = false := by
      intro o
      cases o with
      | none => rfl
      | some x =>
        simp only [FieldValue.orElse, FieldValue.ofNullable]
        split_ifs <;> rfl
    simp only [firestoreSetDoc, spread, List.foldl, setField, List.any, List.map]
    simp [hnull, horElse, hset]
  rw [this]
  rfl

end AuthContext

theorem signUp_written (b : AuthContext.SignUpBackend) (email password : String)
    (displayName : Option String) (now : Nat) (user : AuthContext.AuthUser)
    (written : Option (String × DocData))
    (h : AuthContext.signUp b email password displayName now = .ok (user, written)) :
    ∃ u, written = AuthContext.createUserDocument b.setDoc (some u)
      [("displayName", FieldValue.ofOptional displayName)] "user" now := by
  unfold AuthContext.signUp at h
  cases hc : b.createUser email password with
  | error e => simp [hc] at h
  | ok u0 =>
    simp only [hc] at h
    split_ifs at h with ht
    · cases hu : b.updateProfile u0.uid (displayName.getD "") with
      | error e => simp [hu] at h
      | ok x =>
        simp only [hu, Except.ok.injEq, Prod.mk.injEq] at h
        exact ⟨_, h.2.symm⟩
    · simp only [Except.ok.injEq, Prod.mk.injEq] at h
      exact ⟨_, h.2.symm⟩

theorem createUserDocument_undefined (setDoc : String → DocData → Except SdkError Unit)
    (u : AuthContext.AuthUser) (role : String) (now : Nat) :
    AuthContext.createUserDocument setDoc (some u) [("displayName", .undefined)] role now
      = none := by
  simp [AuthContext.createUserDocument, firestoreSetDoc, spread, setField]

/-- C15: a sign-up that succeeds through `SignupPage.handleSubmit` (it navigates
on) has stored a user document with role "user" and an empty watchlist; every
document stored by a successful `AuthContext.signUp` has role "user" and an
empty watchlist, whatever email, password and display name were supplied.  For
`signUp` a document is stored whenever a display name was passed and the
backend accepts the write; with the display name omitted the write is rejected
for its `undefined` field and no document is stored by the call. -/
theorem signup_document_has_role_user
    (bp : SignupPage.Backend) (s : SignupPage.PageState) (route : String) (now : Nat)
    (hp : (SignupPage.handleSubmit bp now s).navigated = some route)
    (ba : AuthContext.SignUpBackend) (email password : String) (displayName : Option String)
    (user : AuthContext.AuthUser) (written : Option (String × DocData))
    (ha : AuthContext.signUp ba email password displayName now = .ok (user, written)) :
    (∃ uid d, (SignupPage.handleSubmit bp now s).written = some (uid, d) ∧
      getField d "role" = some (.str "user") ∧ getField d "watchlist" = some .emptyList) ∧
    (∀ uid d, written = some (uid, d) →
      getField d "role" = some (.str "user") ∧ getField d "watchlist" = some .emptyList) ∧
    (displayName.isSome = true → (∀ uid d, ba.setDoc uid d = .ok ()) →
      written.isSome = true) ∧
    (displayName = none → written = none) := by
  obtain ⟨uid, hw⟩ := SignupPage.handleSubmit_navigated bp now s route hp
  obtain ⟨u, hu⟩ := signUp_written ba email password displayName now user written ha
  refine ⟨⟨uid, _, hw, rfl, rfl⟩, ?_, ?_, ?_⟩
  · intro uid2 d hd
    rw [hu] at hd
    exact AuthContext.createUserDocument_role ba.setDoc (some u) _ "user" now uid2 d hd
  · intro hsome hset
    obtain ⟨name, rfl⟩ := Option.isSome_iff_exists.mp hsome
    rw [hu]
    exact AuthContext.createUserDocument_written ba.setDoc u name "user" now hset
  · rintro rfl
    rw [hu]
    exact createUserDocument_undefined ba.setDoc u "user" now

theorem signup_document_has_role_user_witness :
    (∃ uid d, (SignupPage.handleSubmit SignupPage.accepting 7 SignupPage.sampleForm).written
        = some (uid, d) ∧
      getField d "role" = some (.str "user") ∧ getField d "watchlist" = some .emptyList) ∧
    (∀ uid d,
      AuthContext.createUserDocument AuthContext.acceptingSignUp.setDoc
        (some { uid := "uid1", email := some "a@b.com", displayName := some "Ann",
                photoURL := none })
        [("displayName", .str "Ann")] "user" 7 = some (uid, d) →
      getField d "role" = some (.str "user") ∧ getField d "watchlist" = some .emptyList) ∧
    ((some "Ann" : Option String).isSome = true →
      (∀ uid d, AuthContext.acceptingSignUp.setDoc uid d = .ok ()) →
      (AuthContext.createUserDocument AuthContext.acceptingSignUp.setDoc
        (some { uid := "uid1", email := some "a@b.com", displayName := some "Ann",
                photoURL := none })
        [("displayName", .str "Ann")] "user" 7).isSome = true) ∧
    ((some "Ann" : Option String) = none →
      AuthContext.createUserDocument AuthContext.acceptingSignUp.setDoc
        (some { uid := "uid1", email := some "a@b.com", displayName := some "Ann",
                photoURL := none })
        [("displayName", .str "Ann")] "user" 7 = none) :=
  signup_document_has_role_user SignupPage.accepting SignupPage.sampleForm "/" 7 (by decide)
    AuthContext.acceptingSignUp "a@b.com" "secret1" (some "Ann")
    { uid := "uid1", email := some "a@b.com", displayName := some "Ann", photoURL := none }
    _ rfl

/-! ## Theorems: deleting and updating movies -/

namespace MovieManagement

theorem find_of_mem_nodup (movies : List Movie) (movie : Movie) (hmem : movie ∈ movies)
    (hnodup : (movies.map (fun m => m.id)).Nodup) :
    movies.find? (fun m => m.id == movie.id) = some movie := by
  induction movies with
  | nil => cases hmem
  | cons x xs ih =>
    simp only [List.map_cons, List.nodup_cons] at hnodup
    rcases List.mem_cons.mp hmem with rfl | hxs
    · simp [List.find?]
    · have hne : x.id ≠ movie.id := by
        intro h
        exact hnodup.1 (h ▸ List.mem_map_of_mem (fun m => m.id) hxs)
      have hbeq : (x.id == movie.id) = false := by simpa using hne
      simp only [List.find?, hbeq]
      exact ih hxs hnodup.2

theorem truthy_of_startsWith (path pre : String) (hpre : pre ≠ "")
    (h : startsWith path pre = true) : truthy (some path) = true := by
  have hne : path ≠ "" := by
    rintro rfl
    have hd : pre.data ≠ [] := fun hd => hpre (String.ext hd)
    cases hp : pre.data with
    | nil => exact hd hp
    | cons c cs => simp [startsWith, hp, List.isPrefixOf] at h
  simp [truthy, hne]

theorem handleDelete_confirmed (b : Backend) (s : State) (movie : Movie)
    (hconfirm : s.deleteConfirm = some movie.id) (hid : movie.id ≠ "")
    (hfind : s.movies.find? (fun m => m.id == movie.id) = some movie)
    (hobj : ∀ p, b.deleteObject p = true) (hdoc : b.deleteDoc movie.id = true) :
    handleDelete b movie.id s =
      ({ s with
         movies := s.movies.filter (fun m => m.id != movie.id)
         deleteConfirm := none
         loading := false },
       (if ownedUnder "posters/" movie.poster then [Call.deleteObject (movie.poster.getD "")]
          else []) ++
        (if ownedUnder "movies/" movie.videoUrl then [Call.deleteObject (movie.videoUrl.getD "")]
          else []) ++ [Call.deleteDoc movie.id]) := by
  simp [handleDelete, hconfirm, truthy, hid, hfind, hobj, hdoc]

/-- C16: for a movie of the admin list (ids distinct) whose poster path starts
with "posters/", a confirmed `handleDelete` on which every backend call
resolves issues `deleteObject` for that poster path first and `deleteDoc` for
the movie last, and the local list afterwards holds exactly the other movies. -/
theorem confirmed_delete_removes_poster_and_document (b : Backend) (s : State) (movie : Movie)
    (path : String) (hmem : movie ∈ s.movies) (hnodup : (s.movies.map (fun m => m.id)).Nodup)
    (hconfirm : s.deleteConfirm = some movie.id) (hid : movie.id ≠ "")
    (hposter : movie.poster = some path) (hstarts : startsWith path "posters/" = true)
    (hobj : ∀ p, b.deleteObject p = true) (hdoc : b.deleteDoc movie.id = true) :
    (handleDelete b movie.id s).2.head? = some (Call.deleteObject path) ∧
    (handleDelete b movie.id s).2.getLast? = some (Call.deleteDoc movie.id) ∧
    (∀ m, m ∈ (handleDelete b movie.id s).1.movies ↔ m ∈ s.movies ∧ m ≠ movie) ∧
    (handleDelete b movie.id s).1.movies = s.movies.filter (fun m => m.id != movie.id) ∧
    (handleDelete b movie.id s).1.deleteConfirm = none ∧
    (handleDelete b movie.id s).1.error = s.error := by
  have hfind := find_of_mem_nodup s.movies movie hmem hnodup
  have howned : ownedUnder "posters/" movie.poster = true := by
    simp [ownedUnder, hposter, hstarts, truthy_of_startsWith path "posters/" (by decide) hstarts]
  rw [handleDelete_confirmed b s movie hconfirm hid hfind hobj hdoc]
  rw [if_pos howned, hposter]
  refine ⟨by simp, ?_, ?_, rfl, rfl, rfl⟩
  · show (_ ++ [Call.deleteDoc movie.id]).getLast? = _
    rw [List.getLast?_append]
    rfl
  intro m
  simp only [List.mem_filter, bne_iff_ne, ne_eq]
  constructor
  · rintro ⟨hm, hne⟩
    exact ⟨hm, fun h => hne (h ▸ rfl)⟩
  · rintro ⟨hm, hne⟩
    refine ⟨hm, fun hidm => hne ?_⟩
    have h1 := find_of_mem_nodup s.movies m hm hnodup
    rw [hidm, hfind] at h1
    exact (Option.some.inj h1).symm

theorem confirmed_delete_removes_poster_and_document_witness :
    (handleDelete accepting "m1" sampleState).2.head?
      = some (Call.deleteObject "posters/1700000000000-one.jpg") ∧
    (handleDelete accepting "m1" sampleState).2.getLast? = some (Call.deleteDoc "m1") ∧
    (∀ m, m ∈ (handleDelete accepting "m1" sampleState).1.movies ↔
      m ∈ sampleState.movies ∧
        m ≠ { id := "m1", title := "One", poster := some "posters/1700000000000-one.jpg",
              videoUrl := some "movies/1700000000000-one.mp4" }) ∧
    (handleDelete accepting "m1" sampleState).1.movies
      = sampleState.movies.filter (fun m => m.id != "m1") ∧
    (handleDelete accepting "m1" sampleState).1.deleteConfirm = none ∧
    (handleDelete accepting "m1" sampleState).1.error = sampleState.error :=
  confirmed_delete_removes_poster_and_document accepting sampleState
    { id := "m1", title := "One", poster := some "posters/1700000000000-one.jpg",
      videoUrl := some "movies/1700000000000-one.mp4" }
    "posters/1700000000000-one.jpg" (by decide) (by decide) rfl (by decide) rfl (by decide)
    (fun _ => rfl) rfl

end MovieManagement

namespace UseMovies

theorem deleteMovie_resolved (b : Backend) (id : String) (s : HookState) (movieData : MovieRecord)
    (hget : b.getDoc id = .ok (some movieData)) (hdoc : b.deleteDoc id = true) :
    (deleteMovie b id s).returned = true ∧
    (deleteMovie b id s).state.error = none ∧
    (deleteMovie b id s).state.loading = false ∧
    (deleteMovie b id s).effects =
      [Effect.getDoc id] ++ cleanup b movieData.poster "Could not delete poster:" ++
        cleanup b movieData.videoUrl "Could not delete video:" ++ [Effect.deleteDoc id] := by
  unfold deleteMovie
  simp only [hget, hdoc]
  cases hm : s.movie with
  | none => simp
  | some m => by_cases hid : m.id = id <;> simp [hid]

theorem cleanup_not_owned (b : Backend) (v : Option String) (warning : String)
    (h : inOurStorage v = false) : cleanup b v warning = [] := by
  simp [cleanup, h]

theorem cleanup_rejected (b : Backend) (url : String) (warning : String)
    (h : inOurStorage (some url) = true) (hrej : b.deleteObject url = false) :
    cleanup b (some url) warning = [Effect.deleteObject url, Effect.warn warning] := by
  simp [cleanup, h, hrej]

theorem cleanup_no_logError (b : Backend) (v : Option String) (warning message : String) :
    Effect.logError message ∉ cleanup b v warning := by
  unfold cleanup
  split_ifs <;> simp

end UseMovies

/-- C17: deleting a movie whose poster is not an owned asset issues no storage
deletion for the poster while the document is deleted.  For a confirmed
`MovieManagement.handleDelete` (poster not starting with "posters/", backend
calls resolving) the calls are the video deletion, if the video is owned, and
then `deleteDoc`; and on any backend every `deleteObject` it issues is for the
movie's video path.  For `useMovies.deleteMovie` (poster not containing
"firebasestorage", document found, `deleteDoc` resolving) the effects are the
read, the video cleanup, and `deleteDoc`. -/
theorem external_poster_not_deleted
    (b : MovieManagement.Backend) (s : MovieManagement.State) (movie : MovieManagement.Movie)
    (hconfirm : s.deleteConfirm = some movie.id) (hid : movie.id ≠ "")
    (hfind : s.movies.find? (fun m => m.id == movie.id) = some movie)
    (hext : ∀ path, movie.poster = some path → startsWith path "posters/" = false)
    (hobj : ∀ p, b.deleteObject p = true) (hdoc : b.deleteDoc movie.id = true)
    (hb : UseMovies.Backend) (id : String) (hs : UseMovies.HookState)
    (movieData : UseMovies.MovieRecord)
    (hget : hb.getDoc id = .ok (some movieData)) (hdel : hb.deleteDoc id = true)
    (hext2 : ∀ url, movieData.poster = some url → includes url "firebasestorage" = false) :
    (MovieManagement.handleDelete b movie.id s).2 =
      (if MovieManagement.ownedUnder "movies/" movie.videoUrl then
        [MovieManagement.Call.deleteObject (movie.videoUrl.getD "")] else []) ++
      [MovieManagement.Call.deleteDoc movie.id] ∧
    (∀ (b2 : MovieManagement.Backend) (p : String),
      MovieManagement.Call.deleteObject p ∈ (MovieManagement.handleDelete b2 movie.id s).2 →
        movie.videoUrl = some p ∧ startsWith p "movies/" = true) ∧
    (UseMovies.deleteMovie hb id hs).effects =
      [UseMovies.Effect.getDoc id] ++
        UseMovies.cleanup hb movieData.videoUrl "Could not delete video:" ++
        [UseMovies.Effect.deleteDoc id] ∧
    (UseMovies.deleteMovie hb id hs).returned = true := by
  have hnot : MovieManagement.ownedUnder "posters/" movie.poster = false := by
    cases hp : movie.poster with
    | none => simp [MovieManagement.ownedUnder, truthy]
    | some path => simp [MovieManagement.ownedUnder, hext path hp]
  have hnot2 : UseMovies.inOurStorage movieData.poster = false := by
    cases hp : movieData.poster with
    | none => simp [UseMovies.inOurStorage, truthy]
    | some url => simp [UseMovies.inOurStorage, hext2 url hp]
  refine ⟨?_, ?_, ?_, ?_⟩
  · rw [MovieManagement.handleDelete_confirmed b s movie hconfirm hid hfind hobj hdoc]
    simp [hnot]
  · intro b2 p hp
    have hvideo : ∀ q, MovieManagement.Call.deleteObject q ∈
        (if MovieManagement.ownedUnder "movies/" movie.videoUrl then
          [MovieManagement.Call.deleteObject (movie.videoUrl.getD "")] else []) →
        movie.videoUrl = some q ∧ startsWith q "movies/" = true := by
      intro q hq
      by_cases ho : MovieManagement.ownedUnder "movies/" movie.videoUrl = true
      · rw [if_pos ho] at hq
        simp only [List.mem_singleton, MovieManagement.Call.deleteObject.injEq] at hq
        cases hv : movie.videoUrl with
        | none => simp [MovieManagement.ownedUnder, hv, truthy] at ho
        | some u =>
          simp only [hv, Option.getD_some] at hq
          subst hq
          simp only [MovieManagement.ownedUnder, hv, Option.getD_some, Bool.and_eq_true] at ho
          exact ⟨rfl, ho.2⟩
      · rw [if_neg ho] at hq
        cases hq
    simp only [MovieManagement.handleDelete, hconfirm, truthy, hid, hfind, hnot] at hp
    simp only [bne_self_eq_false, Bool.or_false, Bool.false_and, List.nil_append] at hp
    apply hvideo p
    revert hp
    simp only [bne_iff_ne, ne_eq, hid, not_false_eq_true, decide_True, Bool.not_true,
      Bool.false_eq_true, if_false]
    split_ifs <;> simp
  · rw [(UseMovies.deleteMovie_resolved hb id hs movieData hget hdel).2.2.2,
      UseMovies.cleanup_not_owned hb movieData.poster _ hnot2]
    simp
  · exact (UseMovies.deleteMovie_resolved hb id hs movieData hget hdel).1

theorem external_poster_not_deleted_witness :
    (MovieManagement.handleDelete MovieManagement.accepting "m2"
        { MovieManagement.sampleState with deleteConfirm := some "m2" }).2 =
      (if MovieManagement.ownedUnder "movies/" none then
        [MovieManagement.Call.deleteObject ((none : Option String).getD "")] else []) ++
      [MovieManagement.Call.deleteDoc "m2"] ∧
    (∀ (b2 : MovieManagement.Backend) (p : String),
      MovieManagement.Call.deleteObject p ∈ (MovieManagement.handleDelete b2 "m2"
          { MovieManagement.sampleState with deleteConfirm := some "m2" }).2 →
        (none : Option String) = some p ∧ startsWith p "movies/" = true) ∧
    (UseMovies.deleteMovie UseMovies.flakyStorage "m2" UseMovies.initialHook).effects =
      [UseMovies.Effect.getDoc "m2"] ++
        UseMovies.cleanup UseMovies.flakyStorage UseMovies.externalMovie.videoUrl
          "Could not delete video:" ++
        [UseMovies.Effect.deleteDoc "m2"] ∧
    (UseMovies.deleteMovie UseMovies.flakyStorage "m2" UseMovies.initialHook).returned = true :=
  external_poster_not_deleted MovieManagement.accepting
    { MovieManagement.sampleState with deleteConfirm := some "m2" }
    { id := "m2", title := "Two", poster := some "https://example.com/two.jpg", videoUrl := none }
    rfl (by decide) (by decide)
    (by
      intro path hp
      cases hp
      decide)
    (fun _ => rfl) rfl
    UseMovies.flakyStorage "m2" UseMovies.initialHook UseMovies.externalMovie rfl rfl
    (by
      intro url hu
      cases hu
      decide)

namespace UseMovies

theorem updateMovie_resolved (b : Backend) (id title : String) (posterFile videoFile : Option String)
    (s : HookState) (currentData : MovieRecord)
    (hget : b.getDoc id = .ok (some currentData))
    (hup : ∀ folder file, (b.uploadFile folder file).isSome = true)
    (hdoc : b.updateDoc id = true) :
    (updateMovie b id title posterFile videoFile s).returned = true ∧
    (updateMovie b id title posterFile videoFile s).state.error = none ∧
    (updateMovie b id title posterFile videoFile s).state.loading = false ∧
    ∃ poster video,
      (updateMovie b id title posterFile videoFile s).effects =
        [Effect.getDoc id] ++
          (match posterFile with
            | none => []
            | some file =>
              cleanup b currentData.poster "Could not delete old poster:" ++
                [Effect.upload "posters" file]) ++
          (match videoFile with
            | none => []
            | some file =>
              cleanup b currentData.videoUrl "Could not delete old video:" ++
                [Effect.upload "movies" file]) ++
          [Effect.updateDoc id poster video] := by
  unfold updateMovie
  simp only [hget, hdoc]
  cases posterFile with
  | none =>
    cases videoFile with
    | none =>
      cases hm : s.movie with
      | none => exact ⟨by simp, by simp, by simp, currentData.poster,
          (if truthy currentData.videoUrl then currentData.videoUrl.getD "" else ""), by simp⟩
      | some m =>
        by_cases hid : m.id = id
        · exact ⟨by simp [hid], by simp [hid], by simp [hid], currentData.poster,
          (if truthy currentData.videoUrl then currentData.videoUrl.getD "" else ""), by simp [hid]⟩
        · exact ⟨by simp [hid], by simp [hid], by simp [hid], currentData.poster,
          (if truthy currentData.videoUrl then currentData.videoUrl.getD "" else ""), by simp [hid]⟩
    | some vf =>
      obtain ⟨vurl, hv⟩ := Option.isSome_iff_exists.mp (hup "movies" vf)
      cases hm : s.movie with
      | none => exact ⟨by simp [replaceAsset, hv], by simp [replaceAsset, hv], by simp [replaceAsset, hv], currentData.poster, vurl, by simp [replaceAsset, hv]⟩
      | some m =>
        by_cases hid : m.id = id
        · exact ⟨by simp [replaceAsset, hv, hid], by simp [replaceAsset, hv, hid], by simp [replaceAsset, hv, hid], currentData.poster, vurl, by simp [replaceAsset, hv, hid]⟩
        · exact ⟨by simp [replaceAsset, hv, hid], by simp [replaceAsset, hv, hid], by simp [replaceAsset, hv, hid], currentData.poster, vurl, by simp [replaceAsset, hv, hid]⟩
  | some pf =>
    obtain ⟨purl, hp⟩ := Option.isSome_iff_exists.mp (hup "posters" pf)
    cases videoFile with
    | none =>
      cases hm : s.movie with
      | none => exact ⟨by simp [replaceAsset, hp], by simp [replaceAsset, hp], by simp [replaceAsset, hp], some purl,
          (if truthy currentData.videoUrl then currentData.videoUrl.getD "" else ""), by simp [replaceAsset, hp]⟩
      | some m =>
        by_cases hid : m.id = id
        · exact ⟨by simp [replaceAsset, hp, hid], by simp [replaceAsset, hp, hid], by simp [replaceAsset, hp, hid], some purl,
          (if truthy currentData.videoUrl then currentData.videoUrl.getD "" else ""), by simp [replaceAsset, hp, hid]⟩
        · exact ⟨by simp [replaceAsset, hp, hid], by simp [replaceAsset, hp, hid], by simp [replaceAsset, hp, hid], some purl,
          (if truthy currentData.videoUrl then currentData.videoUrl.getD "" else ""), by simp [replaceAsset, hp, hid]⟩
    | some vf =>
      obtain ⟨vurl, hv⟩ := Option.isSome_iff_exists.mp (hup "movies" vf)
      cases hm : s.movie with
      | none => exact ⟨by simp [replaceAsset, hp, hv], by simp [replaceAsset, hp, hv], by simp [replaceAsset, hp, hv], some purl, vurl, by simp [replaceAsset, hp, hv]⟩
      | some m =>
        by_cases hid : m.id = id
        · exact ⟨by simp [replaceAsset, hp, hv, hid], by simp [replaceAsset, hp, hv, hid], by simp [replaceAsset, hp, hv, hid], some purl, vurl, by simp [replaceAsset, hp, hv, hid]⟩
        · exact ⟨by simp [replaceAsset, hp, hv, hid], by simp [replaceAsset, hp, hv, hid], by simp [replaceAsset, hp, hv, hid], some purl, vurl, by simp [replaceAsset, hp, hv, hid]⟩

end UseMovies

namespace UseMovies

theorem warn_mem_cleanup (b : Backend) (url warning : String)
    (h : inOurStorage (some url) = true) (hrej : b.deleteObject url = false) :
    Effect.warn warning ∈ cleanup b (some url) warning := by
  rw [cleanup_rejected b url warning h hrej]
  simp

/-- C18: asset cleanup in `deleteMovie` and `updateMovie` is best-effort.  When
the document is found, uploads resolve and the document operation resolves,
then whatever `deleteObject` does (rejecting included) the call returns
normally with the hook's error state `null`, `deleteDoc` (delete) or
`updateDoc` (update) is issued, nothing is logged as an error, and every
rejected deletion of an asset in our storage leaves its warning in the log. -/
theorem asset_cleanup_best_effort (b : Backend) (id title : String)
    (posterFile videoFile : Option String) (s : HookState) (movieData : MovieRecord)
    (hget : b.getDoc id = .ok (some movieData))
    (hup : ∀ folder file, (b.uploadFile folder file).isSome = true)
    (hupd : b.updateDoc id = true) (hdel : b.deleteDoc id = true) :
    ((deleteMovie b id s).returned = true ∧
      (deleteMovie b id s).state.error = none ∧
      Effect.deleteDoc id ∈ (deleteMovie b id s).effects ∧
      (∀ message, Effect.logError message ∉ (deleteMovie b id s).effects) ∧
      (∀ url, movieData.poster = some url → inOurStorage (some url) = true →
        b.deleteObject url = false →
        Effect.warn "Could not delete poster:" ∈ (deleteMovie b id s).effects) ∧
      (∀ url, movieData.videoUrl = some url → inOurStorage (some url) = true →
        b.deleteObject url = false →
        Effect.warn "Could not delete video:" ∈ (deleteMovie b id s).effects)) ∧
    ((updateMovie b id title posterFile videoFile s).returned = true ∧
      (updateMovie b id title posterFile videoFile s).state.error = none ∧
      (∃ poster video, Effect.updateDoc id poster video ∈
        (updateMovie b id title posterFile videoFile s).effects) ∧
      (∀ message, Effect.logError message ∉
        (updateMovie b id title posterFile videoFile s).effects) ∧
      (∀ file url, posterFile = some file → movieData.poster = some url →
        inOurStorage (some url) = true → b.deleteObject url = false →
        Effect.warn "Could not delete old poster:" ∈
          (updateMovie b id title posterFile videoFile s).effects) ∧
      (∀ file url, videoFile = some file → movieData.videoUrl = some url →
        inOurStorage (some url) = true → b.deleteObject url = false →
        Effect.warn "Could not delete old video:" ∈
          (updateMovie b id title posterFile videoFile s).effects)) := by
  obtain ⟨hd1, hd2, -, hd4⟩ := deleteMovie_resolved b id s movieData hget hdel
  obtain ⟨hu1, hu2, -, poster, video, hu4⟩ :=
    updateMovie_resolved b id title posterFile videoFile s movieData hget hup hupd
  refine ⟨⟨hd1, hd2, ?_, ?_, ?_, ?_⟩, ⟨hu1, hu2, ⟨poster, video, ?_⟩, ?_, ?_, ?_⟩⟩
  · rw [hd4]
    simp
  · intro message
    rw [hd4]
    simp [cleanup_no_logError]
  · intro url hp hown hrej
    rw [hd4, hp]
    have := warn_mem_cleanup b url "Could not delete poster:" hown hrej
    simp [this]
  · intro url hv hown hrej
    rw [hd4, hv]
    have := warn_mem_cleanup b url "Could not delete video:" hown hrej
    simp [this]
  · rw [hu4]
    simp
  · intro message
    rw [hu4]
    cases posterFile <;> cases videoFile <;> simp [cleanup_no_logError]
  · rintro file url rfl hp hown hrej
    rw [hu4, hp]
    have := warn_mem_cleanup b url "Could not delete old poster:" hown hrej
    simp [this]
  · rintro file url rfl hv hown hrej
    rw [hu4, hv]
    have := warn_mem_cleanup b url "Could not delete old video:" hown hrej
    simp [this]

theorem asset_cleanup_best_effort_witness :
    ((deleteMovie flakyStorage "m1" initialHook).returned = true ∧
      (deleteMovie flakyStorage "m1" initialHook).state.error = none ∧
      Effect.deleteDoc "m1" ∈ (deleteMovie flakyStorage "m1" initialHook).effects ∧
      (∀ message, Effect.logError message ∉ (deleteMovie flakyStorage "m1" initialHook).effects) ∧
      (∀ url, storedMovie.poster = some url → inOurStorage (some url) = true →
        flakyStorage.deleteObject url = false →
        Effect.warn "Could not delete poster:" ∈ (deleteMovie flakyStorage "m1" initialHook).effects) ∧
      (∀ url, storedMovie.videoUrl = some url → inOurStorage (some url) = true →
        flakyStorage.deleteObject url = false →
        Effect.warn "Could not delete video:" ∈ (deleteMovie flakyStorage "m1" initialHook).effects)) ∧
    ((updateMovie flakyStorage "m1" "One" (some "new.jpg") (some "new.mp4")
        initialHook).returned = true ∧
      (updateMovie flakyStorage "m1" "One" (some "new.jpg") (some "new.mp4")
        initialHook).state.error = none ∧
      (∃ poster video, Effect.updateDoc "m1" poster video ∈
        (updateMovie flakyStorage "m1" "One" (some "new.jpg") (some "new.mp4")
        initialHook).effects) ∧
      (∀ message, Effect.logError message ∉
        (updateMovie flakyStorage "m1" "One" (some "new.jpg") (some "new.mp4")
        initialHook).effects) ∧
      (∀ file url, (some "new.jpg" : Option String) = some file → storedMovie.poster = some url →
        inOurStorage (some url) = true → flakyStorage.deleteObject url = false →
        Effect.warn "Could not delete old poster:" ∈
          (updateMovie flakyStorage "m1" "One" (some "new.jpg") (some "new.mp4")
        initialHook).effects) ∧
      (∀ file url, (some "new.mp4" : Option String) = some file → storedMovie.videoUrl = some url →
        inOurStorage (some url) = true → flakyStorage.deleteObject url = false →
        Effect.warn "Could not delete old video:" ∈
          (updateMovie flakyStorage "m1" "One" (some "new.jpg") (some "new.mp4")
        initialHook).effects)) :=
  asset_cleanup_best_effort flakyStorage "m1" "One" (some "new.jpg") (some "new.mp4") initialHook
    storedMovie rfl (fun _ _ => rfl) rfl rfl

end UseMovies

/-! ## Theorems: VideoPlayer loading and control visibility -/

namespace VideoPlayer

/-- C19: evaluation at a failing input.  The mounted sample session has run
`loadVideo` once.  A `play` event re-runs the effect and with it `loadVideo`
(second run), a following `pause` a third time, and so does the time-update
that turns `watchStarted` on; each run sets `loading` to true and assigns the
element's `src` again, although `videoUrl` never changed. -/
theorem play_event_reloads_video :
    sampleSession.loadCalls = 1 ∧
    (run sampleSession [(1, Event.play)]).loadCalls = 2 ∧
    (run sampleSession [(1, Event.play), (2, Event.pause)]).loadCalls = 3 ∧
    (run sampleSession [(1, Event.timeUpdate 31)]).loadCalls = 2 ∧
    (run sampleSession [(1, Event.play)]).props.videoUrl = sampleSession.props.videoUrl ∧
    loadVideo resolving sampleSession.props.videoUrl true =
      [LoadStep.setLoading true,
       LoadStep.assignSrc (some "https://firebasestorage.googleapis.com/movies/m1.mp4"),
       LoadStep.setDownloadUrl "https://firebasestorage.googleapis.com/movies/m1.mp4",
       LoadStep.setLoading false] := by
  refine ⟨?_, ?_, ?_, ?_, ?_, by decide⟩
  · simp [sampleSession, mount, runEffect, initialState]
  · simp [run, step, handle, handlePlay, depsChanged, runEffect, sampleSession, mount,
      initialState]
  · simp [run, step, handle, handlePlay, handlePause, depsChanged, runEffect, sampleSession,
      mount, initialState]
  · simp [run, step, handle, handleTimeUpdate, depsChanged, runEffect, sampleSession, mount,
      initialState, addToWatchHistory, arrayUnion, posterOrNull]
    norm_num
  · simp [run, step, handle, handlePlay, depsChanged, runEffect, sampleSession, mount,
      initialState]

/-- C20: evaluation at a failing input.  From the mounted player the events
`play`, pointer move, timer expiry, `pause` lead to a state that is paused with
the controls hidden: the timer hid them while playing and `handlePause` does
not show them again. -/
theorem paused_with_hidden_controls :
    ([ControlEvent.play, ControlEvent.pointerMove, ControlEvent.timerExpiry,
        ControlEvent.pause].foldl controlStep initialControls).state.isPlaying = false ∧
    ([ControlEvent.play, ControlEvent.pointerMove, ControlEvent.timerExpiry,
        ControlEvent.pause].foldl controlStep initialControls).state.showControls = false ∧
    ([ControlEvent.play, ControlEvent.pointerMove,
        ControlEvent.timerExpiry].foldl controlStep initialControls).state.isPlaying = true := by
  simp [controlStep, handleMouseMove, timerExpiry, rerender, handlePlay, handlePause,
    depsChanged, initialControls, initialState]

end VideoPlayer

/-! ## Theorems: roles and profile -/

namespace AuthContext

/-- C21: `setAdminRole(uid, makeAdmin)` changes a role only for administrators.
With `isAdmin` false it throws "Permission denied: Only administrators can
change user roles", issues no write and leaves every stored role as it was.
With `isAdmin` true and the write resolving it throws nothing, issues the one
write, and afterwards the role of `users/uid` is "admin" when `makeAdmin` is
true and "user" otherwise, all other documents unchanged. -/
theorem setAdminRole_only_for_admins (w : World) (uid : String) (makeAdmin : Bool) :
    (w.provider.isAdmin = false →
      (setAdminRole w uid makeAdmin).thrown
          = some "Permission denied: Only administrators can change user roles" ∧
        (setAdminRole w uid makeAdmin).writes = [] ∧
        (setAdminRole w uid makeAdmin).world.store = w.store) ∧
    (w.provider.isAdmin = true → (w.store uid).isSome = true →
      (setAdminRole w uid makeAdmin).thrown = none ∧
        (setAdminRole w uid makeAdmin).writes = [(uid, if makeAdmin then "admin" else "user")] ∧
        (setAdminRole w uid makeAdmin).world.store uid
          = some (some (if makeAdmin then "admin" else "user")) ∧
        ∀ other, other ≠ uid → (setAdminRole w uid makeAdmin).world.store other = w.store other) := by
  constructor
  · intro h
    simp [setAdminRole, h]
  · intro h hdoc
    obtain ⟨stored, hs⟩ := Option.isSome_iff_exists.mp hdoc
    simp only [setAdminRole, h, updateRole, hs]
    refine ⟨rfl, rfl, by simp, ?_⟩
    intro other hne
    simp [hne]

theorem setAdminRole_only_for_admins_witness :
    ((setAdminRole initialWorld "u1" true).thrown
        = some "Permission denied: Only administrators can change user roles" ∧
      (setAdminRole initialWorld "u1" true).writes = [] ∧
      (setAdminRole initialWorld "u1" true).world.store = initialWorld.store) ∧
    ((setAdminRole (authStateChanged initialWorld (some "a1")) "u1" true).thrown = none ∧
      (setAdminRole (authStateChanged initialWorld (some "a1")) "u1" true).writes
        = [("u1", if true then "admin" else "user")] ∧
      (setAdminRole (authStateChanged initialWorld (some "a1")) "u1" true).world.store "u1"
        = some (some (if true then "admin" else "user")) ∧
      ∀ other, other ≠ "u1" →
        (setAdminRole (authStateChanged initialWorld (some "a1")) "u1" true).world.store other
          = (authStateChanged initialWorld (some "a1")).store other) :=
  ⟨(setAdminRole_only_for_admins initialWorld "u1" true).1 rfl,
   (setAdminRole_only_for_admins (authStateChanged initialWorld (some "a1")) "u1" true).2
     (by decide) (by decide)⟩

/-- C22: evaluation at failing inputs.  For the input `{ role: "" }` (and
likewise `{ role: null }`) `updateUserProfile` leaves the falsy role in place:
the update handed to `updateDoc` has a `role` field, and applied to a stored
document with role "admin" it changes the stored role.  A truthy role such as
"admin" is stripped. -/
theorem profile_update_keeps_falsy_role :
    updateUserProfile (some sampleUser) [("role", .str "")] 7
      = .ok [ProfileCall.updateDoc "u1"
          [("role", .str ""), ("updatedAt", .time (.isoString 7))]] ∧
    getField (applyUpdate [("role", .str "admin")]
      [("role", .str ""), ("updatedAt", .time (.isoString 7))]) "role" = some (.str "") ∧
    updateUserProfile (some sampleUser) [("role", .null)] 7
      = .ok [ProfileCall.updateDoc "u1"
          [("role", .null), ("updatedAt", .time (.isoString 7))]] ∧
    updateUserProfile (some sampleUser) [("role", .str "admin")] 7
      = .ok [ProfileCall.updateDoc "u1" [("updatedAt", .time (.isoString 7))]] :=
  ⟨rfl, by decide, rfl, rfl⟩

/-- C27: evaluation at failing inputs.  With the plain user `u1` signed in,
`checkAdminStatus("a1")` for the administrator `a1` sets `isAdmin` to true
although the stored role of `u1` is "user"; `setAdminRole("u1", true)` then
passes its check and makes `u1` an administrator.  Also, after the
administrator `a1` signs in and calls `setAdminRole("a1", false)`, `isAdmin` is
still true while the stored role of `a1` is "user". -/
theorem isAdmin_set_from_other_user :
    ([Op.authStateChanged (some "u1"), Op.checkAdminStatus "a1"].foldl applyOp
        initialWorld).provider.isAdmin = true ∧
    ([Op.authStateChanged (some "u1"), Op.checkAdminStatus "a1"].foldl applyOp
        initialWorld).provider.user = some "u1" ∧
    ([Op.authStateChanged (some "u1"), Op.checkAdminStatus "a1"].foldl applyOp
        initialWorld).store "u1" = some (some "user") ∧
    ([Op.authStateChanged (some "u1"), Op.checkAdminStatus "a1",
        Op.setAdminRole "u1" true].foldl applyOp initialWorld).store "u1"
      = some (some "admin") ∧
    ([Op.authStateChanged (some "a1"), Op.setAdminRole "a1" false].foldl applyOp
        initialWorld).provider.isAdmin = true ∧
    ([Op.authStateChanged (some "a1"), Op.setAdminRole "a1" false].foldl applyOp
        initialWorld).store "a1" = some (some "user") := by
  decide

end AuthContext

/-! ## Theorems: watch history -/

namespace VideoPlayer

theorem filter_eq_nil_of_find_none (m : String) (l : List HistoryEntry)
    (h : l.find? (fun item => item.movieId == m) = none) :
    l.filter (fun item => item.movieId == m) = [] ∧
      l.filter (fun item => item.movieId != m) = l := by
  have hall : ∀ item ∈ l, item.movieId ≠ m := by
    intro item hitem
    have := List.find?_eq_none.mp h item hitem
    simpa using this
  constructor
  · apply List.filter_eq_nil_iff.mpr
    intro item hitem
    simpa using hall item hitem
  · apply List.filter_eq_self.mpr
    intro item hitem
    simpa using hall item hitem

theorem filter_filter_ne (m : String) (l : List HistoryEntry) :
    (l.filter (fun item => item.movieId != m)).filter (fun item => item.movieId == m) = [] ∧
      (l.filter (fun item => item.movieId != m)).filter (fun item => item.movieId != m)
        = l.filter (fun item => item.movieId != m) := by
  constructor
  · apply List.filter_eq_nil_iff.mpr
    intro item hitem
    have := (List.mem_filter.mp hitem).2
    simpa using this
  · apply List.filter_eq_self.mpr
    intro item hitem
    exact (List.mem_filter.mp hitem).2

theorem arrayUnion_of_find_none (field : Option (List HistoryEntry)) (e : HistoryEntry)
    (hfind : (field.getD []).find? (fun item => item.movieId == e.movieId) = none) :
    arrayUnion field e = field.getD [] ++ [e] := by
  cases field with
  | none => simp [arrayUnion]
  | some xs =>
    have hnot : e ∉ xs := by
      intro hmem
      have := List.find?_eq_none.mp hfind e hmem
      simp at this
    simp [arrayUnion, hnot]

/-- C23: for a signed-in user with an existing document, `addToWatchHistory`
stores a history that holds exactly one entry for the movie, that entry (with
the current title, time and poster) being last, while the entries of all other
movies are the stored ones in their stored order; the rest of the document is
unchanged. -/
theorem watch_history_one_entry_last (props : Props) (uid : String) (userData : UserDoc)
    (now : Nat) :
    ∃ d h, (addToWatchHistory props (some uid) (some userData) now).1 = some d ∧
      d.watchHistory = some h ∧
      (h.filter (fun item => item.movieId == props.movieId)).length = 1 ∧
      h.getLast? = some { movieId := props.movieId, title := props.title, watchedAt := now,
                          poster := posterOrNull props.poster } ∧
      h.filter (fun item => item.movieId != props.movieId)
        = (userData.watchHistory.getD []).filter (fun item => item.movieId != props.movieId) ∧
      d.watchlist = userData.watchlist := by
  simp only [addToWatchHistory]
  cases hfind : (userData.watchHistory.getD []).find?
      (fun item => item.movieId == props.movieId) with
  | none =>
    obtain ⟨h1, h2⟩ := filter_eq_nil_of_find_none props.movieId _ hfind
    have hunion := arrayUnion_of_find_none userData.watchHistory
      { movieId := props.movieId, title := props.title, watchedAt := now,
        poster := posterOrNull props.poster } hfind
    refine ⟨_, _, rfl, rfl, ?_, ?_, ?_, rfl⟩
    · rw [hunion, List.filter_append, h1]
      simp
    · rw [hunion, List.getLast?_append]
      rfl
    · rw [hunion, List.filter_append, h2]
      simp
  | some found =>
    obtain ⟨h1, h2⟩ := filter_filter_ne props.movieId (userData.watchHistory.getD [])
    refine ⟨_, _, rfl, rfl, ?_, ?_, ?_, rfl⟩
    · rw [List.filter_append, h1]
      simp
    · rw [List.getLast?_append]
      rfl
    · rw [List.filter_append, h2]
      simp

end VideoPlayer

/-! ## Theorems: related movies, time display, volume -/

namespace UseMovies

theorem fetchRelatedMovies_strict (getDocs : List QueryArg → Except String (List MovieRecord))
    (currentMovieId genre : String) (director : Option String) (limit : Nat) :
    fetchRelatedMovies strictQuery getDocs currentMovieId genre director limit = [] := by
  unfold fetchRelatedMovies
  by_cases hd : truthy director = true <;> simp [hd, strictQuery, QueryArg.isNumber]

/-- C24: evaluation at a failing input.  For the current movie `m1`, a director
given, limit 6 and a backend holding one other movie of that director,
`fetchRelatedMovies` returns `[]`: with the SDK's `query` the number passed in
place of a limit constraint throws, and even with a forgiving `query` the call
`limit(limit - relatedMovies.length)` throws because `limit` is the number.
With the SDK's `query` the result is `[]` for every input. -/
theorem related_movies_come_back_empty :
    fetchRelatedMovies strictQuery oneRelated "m1" "Action" (some "Nolan") 6 = [] ∧
    fetchRelatedMovies lenientQuery oneRelated "m1" "Action" (some "Nolan") 6 = [] ∧
    oneRelated [QueryArg.whereEq "director" "Nolan", QueryArg.whereNe "__name__" "m1"]
      = .ok [sameDirectorMovie] ∧
    (∀ (getDocs : List QueryArg → Except String (List MovieRecord))
        (currentMovieId genre : String) (director : Option String) (limit : Nat),
      fetchRelatedMovies strictQuery getDocs currentMovieId genre director limit = []) :=
  ⟨by decide, by decide, rfl, fetchRelatedMovies_strict⟩

end UseMovies

namespace VideoPlayer

theorem floor_minutes (t : ℕ) : ⌊((t : ℕ) : ℚ) / 60⌋ = ((t / 60 : ℕ) : ℤ) := by
  have := Rat.floor_intCast_div_natCast (t : ℤ) 60
  simpa using this

theorem jsRemainder_natCast (t : ℕ) : jsRemainder (t : ℚ) 60 = ((t % 60 : ℕ) : ℚ) := by
  have hnonneg : (0 : ℚ) ≤ (t : ℚ) / 60 := by positivity
  have h := Nat.div_add_mod t 60
  have h2 : (t : ℚ) = 60 * ((t / 60 : ℕ) : ℚ) + ((t % 60 : ℕ) : ℚ) := by
    exact_mod_cast h.symm
  simp only [jsRemainder, hnonneg, if_true, floor_minutes, Int.cast_natCast]
  linarith

theorem two_digits (s : ℕ) (hs : s < 60) :
    (if ((s : ℕ) : ℤ) < 10 then "0" ++ toString ((s : ℕ) : ℤ) else toString ((s : ℕ) : ℤ))
      = String.mk [Nat.digitChar (s / 10), Nat.digitChar (s % 10)] := by
  interval_cases s <;> rfl

/-- C25: for a whole number `t ≥ 0` of seconds, `formatTime(t)` is the decimal
numeral of `⌊t / 60⌋`, a colon, and `t mod 60` written with exactly two decimal
digits; the seconds field is below 60 and `60 * minutes + seconds = t`. -/
theorem formatTime_whole_seconds (t : ℕ) :
    formatTime (t : ℚ) = toString (t / 60) ++ ":" ++
      String.mk [Nat.digitChar (t % 60 / 10), Nat.digitChar (t % 60 % 10)] ∧
    t % 60 < 60 ∧ 60 * (t / 60) + t % 60 = t := by
  refine ⟨?_, Nat.mod_lt t (by norm_num), Nat.div_add_mod t 60⟩
  simp only [formatTime, floor_minutes, jsRemainder_natCast, Int.floor_natCast]
  rw [two_digits (t % 60) (Nat.mod_lt t (by norm_num))]
  rfl

theorem applyVolumeOp_invariant (s : State) (op : VolumeOp)
    (hv : s.videoRef.isSome = true)
    (hm : s.isMuted = true ↔ s.volume = 0)
    (hp : ∀ v, s.videoRef = some v → v.prevVolume ≠ some 0) :
    (applyVolumeOp s op).videoRef.isSome = true ∧
    ((applyVolumeOp s op).isMuted = true ↔ (applyVolumeOp s op).volume = 0) ∧
    (∀ v, (applyVolumeOp s op).videoRef = some v → v.prevVolume ≠ some 0) := by
  obtain ⟨el, hel⟩ := Option.isSome_iff_exists.mp hv
  have hpel := hp el hel
  cases op with
  | change value =>
    simp only [applyVolumeOp, handleVolumeChange, hel]
    refine ⟨rfl, by simp, ?_⟩
    intro v hv2
    simp only [Option.some.injEq] at hv2
    subst hv2
    exact hpel
  | toggle =>
    simp only [applyVolumeOp, toggleMute, hel]
    by_cases hmuted : s.isMuted = true
    · simp only [hmuted, Bool.not_true, Bool.false_eq_true, if_false]
      refine ⟨rfl, ?_, ?_⟩
      · simp only [Bool.false_eq_true, false_iff]
        cases hprev : el.prevVolume with
        | none => simp
        | some x =>
          simp only [Option.getD_some]
          intro hx
          exact hpel (by rw [hprev, hx])
      · intro v hv2
        simp only [Option.some.injEq] at hv2
        subst hv2
        exact hpel
    · have hfalse : s.isMuted = false := by simpa using hmuted
      have hvol : s.volume ≠ 0 := fun h0 => hmuted (hm.mpr h0)
      simp only [hfalse, Bool.not_false, if_true]
      refine ⟨rfl, by simp, ?_⟩
      intro v hv2
      simp only [Option.some.injEq] at hv2
      subst hv2
      simpa using hvol

/-- C26: in every state reached from the initial state (volume 1, not muted,
video element present) by any sequence of `handleVolumeChange` and `toggleMute`
calls, the slider values in `[0, 1]` included, `isMuted` is true exactly when
the displayed volume is 0. -/
theorem muted_iff_volume_zero (duration : ℚ) (ops : List VolumeOp) :
    ((ops.foldl applyVolumeOp (initialState duration)).isMuted = true ↔
      (ops.foldl applyVolumeOp (initialState duration)).volume = 0) := by
  have key : ∀ (ops : List VolumeOp) (s : State), s.videoRef.isSome = true →
      (s.isMuted = true ↔ s.volume = 0) →
      (∀ v, s.videoRef = some v → v.prevVolume ≠ some 0) →
      ((ops.foldl applyVolumeOp s).isMuted = true ↔ (ops.foldl applyVolumeOp s).volume = 0) := by
    intro ops
    induction ops with
    | nil => intro s _ hm _; exact hm
    | cons op rest ih =>
      intro s hv hm hp
      obtain ⟨h1, h2, h3⟩ := applyVolumeOp_invariant s op hv hm hp
      exact ih (applyVolumeOp s op) h1 h2 h3
  apply key ops (initialState duration)
  · rfl
  · simp [initialState]
  · intro v hv
    simp only [initialState, Option.some.injEq] at hv
    subst hv
    simp

end VideoPlayer

/-! ## Theorems: ratings -/

namespace UseMovies

theorem findIndex_split {α : Type} (p : α → Bool) (l : List α)
    (h : 0 ≤ AuthContext.findIndex p l) :
    ∃ l1 x l2, l = l1 ++ x :: l2 ∧ l1.length = (AuthContext.findIndex p l).toNat ∧
      p x = true ∧ ∀ y ∈ l1, p y = false := by
  induction l with
  | nil => simp [AuthContext.findIndex] at h
  | cons a as ih =>
    by_cases ha : p a = true
    · exact ⟨[], a, as, rfl, by simp [AuthContext.findIndex, ha], ha, by simp⟩
    · have hge := AuthContext.findIndex_ge_neg_one p as
      have hr : 0 ≤ AuthContext.findIndex p as := by
        simp only [AuthContext.findIndex, ha, Bool.false_eq_true, if_false] at h
        split_ifs at h with hneg
        · omega
        · omega
      obtain ⟨l1, x, l2, hl, hlen, hx, hl1⟩ := ih hr
      refine ⟨a :: l1, x, l2, by rw [hl]; rfl, ?_, hx, ?_⟩
      · simp only [AuthContext.findIndex, ha, Bool.false_eq_true, if_false, List.length_cons]
        rw [if_neg (by omega), hlen]
        omega
      · intro y hy
        rcases List.mem_cons.mp hy with rfl | hy
        · simpa using ha
        · exact hl1 y hy

theorem updateAt_append {α : Type} (f : α → α) (l1 : List α) (x : α) (l2 : List α) :
    updateAt f l1.length (l1 ++ x :: l2) = l1 ++ f x :: l2 := by
  induction l1 with
  | nil => rfl
  | cons a as ih => simp [updateAt, ih]

theorem foldl_rating_sum (l : List Rating) (a : ℚ) :
    l.foldl (fun (sum : ℚ) r => sum + r.rating) a = a + (l.map (fun r => r.rating)).sum := by
  induction l generalizing a with
  | nil => simp
  | cons x xs ih =>
    simp only [List.foldl, List.map_cons, List.sum_cons]
    rw [ih]
    ring

theorem filter_user_nil (u : String) (l : List Rating) (h : ∀ y ∈ l, y.userId ≠ u) :
    l.filter (fun x => x.userId == u) = [] ∧ l.filter (fun x => x.userId != u) = l := by
  constructor
  · apply List.filter_eq_nil_iff.mpr
    intro y hy
    simpa using h y hy
  · apply List.filter_eq_self.mpr
    intro y hy
    simpa using h y hy

/-- C28: for a stored ratings list with at most one entry per user,
`rateMovie(id, u, r, c)` with its backend calls resolving writes a list that
has exactly one entry for `u`, carrying rating `r` and comment `c`; the entries
of all other users are the stored ones in their order; the list is one longer
exactly when `u` had no entry and otherwise keeps its length; and the written
`averageRating` is the sum of the written ratings divided by their number. -/
theorem rate_movie_one_entry_per_user
    (getRatings : String → Except String (Option (Option (List Rating))))
    (id u : String) (r : ℚ) (c : String) (now : Nat) (field : Option (List Rating))
    (hget : getRatings id = .ok (some field))
    (huniq : ((field.getD []).map (fun x => x.userId)).Nodup) :
    ∃ w avg, rateMovie getRatings true id u r c now = .ok (w, avg) ∧
      (∃ e, w.filter (fun x => x.userId == u) = [e] ∧ e.rating = r ∧ e.comment = c) ∧
      w.filter (fun x => x.userId != u) = (field.getD []).filter (fun x => x.userId != u) ∧
      (w.length = (field.getD []).length + 1 ↔ ∀ x ∈ field.getD [], x.userId ≠ u) ∧
      (w.length = (field.getD []).length ∨ w.length = (field.getD []).length + 1) ∧
      avg = (w.map (fun x => x.rating)).sum / w.length := by
  simp only [rateMovie, hget, if_true, foldl_rating_sum, zero_add]
  refine ⟨_, _, rfl, ?_⟩
  by_cases hidx : 0 ≤ AuthContext.findIndex (fun x : Rating => x.userId == u) (field.getD [])
  · obtain ⟨l1, x, l2, hl, hlen, hx, hl1⟩ := findIndex_split _ _ hidx
    simp only [ge_iff_le, hidx, if_true]
    rw [← hlen]
    have hxu : x.userId = u := by simpa using hx
    have hl1u : ∀ y ∈ l1, y.userId ≠ u := by
      intro y hy
      simpa using hl1 y hy
    have hl2u : ∀ y ∈ l2, y.userId ≠ u := by
      intro y hy hyu
      rw [hl, List.map_append, List.map_cons] at huniq
      have hnd := (List.nodup_append.mp huniq).2.1
      rw [List.nodup_cons] at hnd
      exact hnd.1 (by rw [hxu, ← hyu]; exact List.mem_map_of_mem (fun x => x.userId) hy)
    obtain ⟨f1, g1⟩ := filter_user_nil u l1 hl1u
    obtain ⟨f2, g2⟩ := filter_user_nil u l2 hl2u
    rw [hl, updateAt_append]
    refine ⟨⟨{ x with rating := r, comment := c, updatedAt := some now }, ?_, rfl, rfl⟩,
      ?_, ?_, ?_, trivial⟩
    · simp [List.filter_append, List.filter_cons, f1, f2, hxu]
    · simp [List.filter_append, List.filter_cons, g1, g2, hxu]
    · simp only [List.length_append, List.length_cons]
      constructor
      · intro hlen2
        omega
      · intro hall
        exact absurd hxu (hall x (by simp))
    · left
      simp
  · simp only [ge_iff_le, hidx, if_false]
    have hnone : ∀ y ∈ field.getD [], y.userId ≠ u := by
      intro y hy hyu
      apply hidx
      rw [AuthContext.findIndex_nonneg_iff]
      exact ⟨y, hy, by simpa using hyu⟩
    obtain ⟨f1, g1⟩ := filter_user_nil u (field.getD []) hnone
    refine ⟨⟨{ userId := u, rating := r, comment := c, createdAt := some now,
               updatedAt := some now }, ?_, rfl, rfl⟩, ?_, ?_, ?_, trivial⟩
    · simp [List.filter_append, f1]
    · simp [List.filter_append, g1]
    · simp only [List.length_append, List.length_singleton, true_iff]
      exact hnone
    · right
      simp

end UseMovies

namespace UseMovies

theorem rate_movie_one_entry_per_user_witness :
    ∃ w avg, rateMovie (fun _ => .ok (some (some sampleRatings))) true "m1" "u1" 5 "great" 9
        = .ok (w, avg) ∧
      (∃ e, w.filter (fun x => x.userId == "u1") = [e] ∧ e.rating = 5 ∧ e.comment = "great") ∧
      w.filter (fun x => x.userId != "u1")
        = (Option.getD (some sampleRatings) []).filter (fun x => x.userId != "u1") ∧
      (w.length = (Option.getD (some sampleRatings) []).length + 1 ↔
        ∀ x ∈ Option.getD (some sampleRatings) [], x.userId ≠ "u1") ∧
      (w.length = (Option.getD (some sampleRatings) []).length ∨
        w.length = (Option.getD (some sampleRatings) []).length + 1) ∧
      avg = (w.map (fun x => x.rating)).sum / w.length :=
  rate_movie_one_entry_per_user (fun _ => .ok (some (some sampleRatings))) "m1" "u1" 5 "great" 9
    (some sampleRatings) rfl (by decide)

end UseMovies

/-! ## Theorems: delete confirmation and sign-up validation -/

namespace MovieManagement

/-- C29: when `deleteConfirm` is not already `movieId` (a first press, or a
press for another movie than the pending one), `handleDelete(movieId)` issues
no storage deletion and no document deletion; it only sets `deleteConfirm` to
`movieId`, the movie list and everything else staying as they were. -/
theorem unconfirmed_delete_only_arms (b : Backend) (movieId : String) (s : State)
    (h : s.deleteConfirm ≠ some movieId) :
    (handleDelete b movieId s).2 = [] ∧
    (handleDelete b movieId s).1.movies = s.movies ∧
    (handleDelete b movieId s).1.deleteConfirm = some movieId ∧
    (handleDelete b movieId s).1 = { s with deleteConfirm := some movieId } := by
  have hne : (s.deleteConfirm != some movieId) = true := by simpa using h
  simp [handleDelete, hne]

theorem unconfirmed_delete_only_arms_witness :
    (handleDelete accepting "m2" sampleState).2 = [] ∧
    (handleDelete accepting "m2" sampleState).1.movies = sampleState.movies ∧
    (handleDelete accepting "m2" sampleState).1.deleteConfirm = some "m2" ∧
    (handleDelete accepting "m2" sampleState).1 = { sampleState with deleteConfirm := some "m2" } :=
  unconfirmed_delete_only_arms accepting "m2" sampleState (by decide)

end MovieManagement

namespace SignupPage

/-- C30: `handleSubmit` calls `createUserWithEmailAndPassword` if and only if
the password equals the confirmation and has at least 6 characters (counted as
`password.length` counts them, in UTF-16 code units), and it makes any backend
call only then.  Otherwise `loading` ends false and the error is "Passwords
don't match" when the two differ, and "Password must be at least 6 characters"
when they agree but the password is too short. -/
theorem signup_validation_gates_backend (b : Backend) (now : Nat) (s : PageState) :
    (Call.createUser s.email s.password ∈ (handleSubmit b now s).calls ↔
      s.password = s.confirmPassword ∧ 6 ≤ jsLength s.password) ∧
    ((handleSubmit b now s).calls ≠ [] ↔
      s.password = s.confirmPassword ∧ 6 ≤ jsLength s.password) ∧
    (s.password ≠ s.confirmPassword →
      (handleSubmit b now s).calls = [] ∧ (handleSubmit b now s).state.loading = false ∧
        (handleSubmit b now s).state.error = "Passwords don't match") ∧
    (s.password = s.confirmPassword → jsLength s.password < 6 →
      (handleSubmit b now s).calls = [] ∧ (handleSubmit b now s).state.loading = false ∧
        (handleSubmit b now s).state.error = "Password must be at least 6 characters") := by
  by_cases h1 : s.password = s.confirmPassword
  · have hneq : ¬ (s.password ≠ s.confirmPassword) := not_not.mpr h1
    by_cases h2 : jsLength s.password < 6
    · have hs : handleSubmit b now s =
          { state := { s with error := "Password must be at least 6 characters",
                              loading := false },
            navigated := none, calls := [], written := none } := by
        simp only [handleSubmit, hneq, if_false, h2, if_true]
      rw [hs]
      refine ⟨?_, ?_, fun hne => absurd h1 hne, fun _ _ => ⟨rfl, rfl, rfl⟩⟩
      · simp only [List.not_mem_nil, false_iff, not_and, not_le]
        exact fun _ => h2
      · simp only [ne_eq, not_true_eq_false, false_iff, not_and, not_le]
        exact fun _ => h2
    · have h6 : 6 ≤ jsLength s.password := Nat.le_of_not_lt h2
      have hcalls : ∃ rest, (handleSubmit b now s).calls
          = Call.createUser s.email s.password :: rest := by
        simp only [handleSubmit, hneq, if_false, h2]
        split
        · exact ⟨_, rfl⟩
        · split
          · exact ⟨_, rfl⟩
          · split <;> exact ⟨_, rfl⟩
      obtain ⟨rest, hrest⟩ := hcalls
      rw [hrest]
      refine ⟨?_, ?_, fun hne => absurd h1 hne, fun _ hlt => absurd hlt h2⟩
      · exact ⟨fun _ => ⟨h1, h6⟩, fun _ => List.mem_cons_self _ _⟩
      · exact ⟨fun _ => ⟨h1, h6⟩, fun _ => List.cons_ne_nil _ _⟩
  · have hs : handleSubmit b now s =
        { state := { s with error := "Passwords don't match", loading := false },
          navigated := none, calls := [], written := none } := by
      simp [handleSubmit, h1]
    rw [hs]
    refine ⟨?_, ?_, fun _ => ⟨rfl, rfl, rfl⟩, fun heq => absurd heq h1⟩
    · simp [h1]
    · simp [h1]

theorem signup_validation_gates_backend_witness :
    (Call.createUser "a@b.com" "12345" ∈
        (handleSubmit accepting 7 { sampleForm with password := "12345",
                                                    confirmPassword := "12345" }).calls ↔
      ("12345" : String) = "12345" ∧ 6 ≤ jsLength "12345") ∧
    ((handleSubmit accepting 7 { sampleForm with password := "12345",
                                                 confirmPassword := "12345" }).calls ≠ [] ↔
      ("12345" : String) = "12345" ∧ 6 ≤ jsLength "12345") ∧
    (("12345" : String) ≠ "12345" →
      (handleSubmit accepting 7 { sampleForm with password := "12345",
                                                  confirmPassword := "12345" }).calls = [] ∧
        (handleSubmit accepting 7 { sampleForm with password := "12345",
                                                    confirmPassword := "12345" }).state.loading
          = false ∧
        (handleSubmit accepting 7 { sampleForm with password := "12345",
                                                    confirmPassword := "12345" }).state.error
          = "Passwords don't match") ∧
    (("12345" : String) = "12345" → jsLength "12345" < 6 →
      (handleSubmit accepting 7 { sampleForm with password := "12345",
                                                  confirmPassword := "12345" }).calls = [] ∧
        (handleSubmit accepting 7 { sampleForm with password := "12345",
                                                    confirmPassword := "12345" }).state.loading
          = false ∧
        (handleSubmit accepting 7 { sampleForm with password := "12345",
                                                    confirmPassword := "12345" }).state.error
          = "Password must be at least 6 characters") :=
  signup_validation_gates_backend accepting 7
    { sampleForm with password := "12345", confirmPassword := "12345" }

end SignupPage

end MovieFlix
